import Mathlib

/-!
Verification of the Review Hound ingestion pipeline against its
natural-language specification.

The Python sources under reviewhound/ are shallowly embedded below.
Numeric review ratings, sentiment scores and weights are embedded as
rationals; SQLAlchemy session state is embedded as an explicit record
(`DB`) threaded through the operations; Python exceptions are embedded
as `Except String` results, paired with the session state at the point
the exception propagates.  The TextBlob polarity model is an external
capability and is embedded as a function parameter `pol : String -> Rat`.

Timestamps are abstracted to a `Nat` clock: the claims only ever ask
whether a completion time was set, never what its value is.

Any definition whose Python source is not part of the snapshot
(reviewhound/models.py, reviewhound/alerts.py, reviewhound/database.py,
reviewhound/analysis/__init__.py, the API scraper classes) is marked
"Modelled from the spec" in its doc comment and follows the wording of
spec.md.
-/

namespace ReviewHound

/-- Modelled from the spec (reviewhound/models.py is not in the snapshot;
field set taken from spec section 3 "Business" and from the constructors in
cli.py, web/routes.py and tests/conftest.py): a tracked business with its
per-source identifiers and URLs. -/
structure Business where
  id : Nat
  name : String
  address : Option String
  trustpilot_url : Option String
  bbb_url : Option String
  yelp_url : Option String
  google_place_id : Option String
  yelp_business_id : Option String
deriving DecidableEq, Repr

/-- A raw candidate record produced by a source adapter: the review dict
returned by a scraper (keys external_id, author_name, rating, text,
review_date as read via review_data.get in services.py). -/
structure Candidate where
  external_id : String
  author_name : Option String
  rating : Option Rat
  text : Option String
  review_date : Option Nat
deriving DecidableEq, Repr

/-- Modelled from the spec (reviewhound/models.py is not in the snapshot;
field set taken from spec section 3 "Review" and from the Review
constructors in services.py, cli.py and scheduler.py): a canonical
persisted review. -/
structure Review where
  id : Nat
  business_id : Nat
  source : String
  external_id : String
  author_name : Option String
  rating : Option Rat
  text : Option String
  review_date : Option Nat
  sentiment_score : Rat
  sentiment_label : String
deriving DecidableEq, Repr

/-- Modelled from the spec (reviewhound/models.py is not in the snapshot;
field set taken from spec section 3 "ScrapeRun" and from the ScrapeLog
constructors in services.py, cli.py and scheduler.py): the per-run audit
record, called ScrapeLog in the code. -/
structure ScrapeLog where
  business_id : Nat
  source : String
  status : String
  started_at : Nat
  completed_at : Option Nat
  reviews_found : Option Nat
  error_message : Option String
deriving DecidableEq, Repr

/-- Modelled from the spec (reviewhound/models.py is not in the snapshot;
field set taken from spec section 3 "NotificationRule" and from the
AlertConfig constructors in cli.py, web/routes.py and tests/conftest.py):
a notification rule. -/
structure AlertConfig where
  id : Nat
  business_id : Nat
  email : String
  alert_on_negative : Bool
  negative_threshold : Rat
  enabled : Bool
deriving DecidableEq, Repr

/-- Modelled from the spec (reviewhound/models.py is not in the snapshot;
field set taken from spec section 3 "SentimentPolicy" and from
get_sentiment_weights in services.py and tests/conftest.py): the stored
sentiment policy, called SentimentConfig in the code. -/
structure SentimentConfig where
  rating_weight : Rat
  text_weight : Rat
  threshold : Rat
deriving DecidableEq, Repr

/-- Modelled from the spec (reviewhound/models.py is not in the snapshot;
field set taken from get_api_config in web/routes.py and
tests/conftest.py): an API provider configuration. -/
structure APIConfig where
  provider : String
  api_key : String
  enabled : Bool
deriving DecidableEq, Repr

/-- The persistent store plus SQLAlchemy session state, embedded as one
record.  `sent` records every (alert config id, review id) notification
dispatched by the alert evaluator.  `conflicts` is the set of
(source, external_id) keys for which the store rejects the review insert
with a unique-constraint violation (spec section 7, PersistenceError:
for example a concurrent sweep committed the same key after this
session ran its existence check).  `clock` abstracts wall-clock time. -/
structure DB where
  businesses : List Business
  reviews : List Review
  logs : List ScrapeLog
  alert_configs : List AlertConfig
  api_configs : List APIConfig
  sentiment_config : Option SentimentConfig
  sent : List (Nat × Nat)
  conflicts : List (String × String)
  next_review_id : Nat
  clock : Nat
deriving DecidableEq, Repr

/-- Python truthiness of an optional string column: None and the empty
string are falsy, anything else is truthy. -/
def truthy : Option String → Bool
  | none => false
  | some s => !(s == "")

/-- The Python blank test `not text or not text.strip()`: true exactly for
the empty string and whitespace-only strings (embedded as: every
character is whitespace, which holds vacuously for the empty string). -/
def is_blank (text : String) : Bool :=
  text.data.all Char.isWhitespace

/-- The polarity the natural-language model assigns to a text, per spec
section 4.1: empty or whitespace-only text yields polarity 0.0
deterministically; otherwise the external capability `pol` decides. -/
def text_polarity (pol : String → Rat) (text : String) : Rat :=
  if is_blank text then 0 else pol text

/-- `analyze_review` from reviewhound/analysis/sentiment.py: the legacy
text-only scorer, with SENTIMENT_THRESHOLD = 0.1.  This is the variant
the one-argument call sites in cli.py and scheduler.py observe. -/
def analyze_review_text (pol : String → Rat) (text : String) : Rat × String :=
  if is_blank text then (0, "neutral")
  else
    let score := pol text
    let label :=
      if score > 1/10 then "positive"
      else if score < -(1/10) then "negative"
      else "neutral"
    (score, label)

/-- Modelled from the spec: the weighted `analyze_review` exported by
reviewhound/analysis/__init__.py, which is not in the snapshot (the call
sites in services.py pass text, rating, rating_weight, text_weight and
threshold; analysis/sentiment.py only holds the legacy text-only
variant above).  Spec section 4.1: a rating of a 1 to 5 domain is mapped
linearly onto [-1, 1] (midpoint 3 maps to 0, extremes to plus or minus 1,
so the component is (r - 3) / 2); the combined score is
rating_weight * rating_component + text_weight * text_polarity when the
rating is present, and text_polarity alone when it is absent; the label
is positive above the threshold, negative below its negation, else
neutral. -/
def analyze_review (pol : String → Rat) (text : String) (rating : Option Rat)
    (rating_weight text_weight threshold : Rat) : Rat × String :=
  let tp := text_polarity pol text
  let score :=
    match rating with
    | some r => rating_weight * ((r - 3) / 2) + text_weight * tp
    | none => tp
  let label :=
    if score > threshold then "positive"
    else if score < -threshold then "negative"
    else "neutral"
  (score, label)

/-- The attribute names defined on the `Config` class in
reviewhound/config.py (the whole class body, in order). -/
def Config_class_attributes : List String :=
  ["DATABASE_PATH", "REQUEST_DELAY_MIN", "REQUEST_DELAY_MAX",
   "MAX_PAGES_PER_SOURCE", "SMTP_HOST", "SMTP_PORT", "SMTP_USER",
   "SMTP_PASSWORD", "SMTP_FROM", "FLASK_SECRET_KEY", "FLASK_DEBUG",
   "SCRAPE_INTERVAL_HOURS"]

/-- `get_sentiment_weights` from reviewhound/services.py: returns the
stored SentimentConfig row when one exists, and otherwise evaluates
Config.SENTIMENT_RATING_WEIGHT, Config.SENTIMENT_TEXT_WEIGHT and
Config.SENTIMENT_THRESHOLD.  The `Config` class in
reviewhound/config.py defines no such attributes (see
`Config_class_attributes`), so the fallback branch raises
AttributeError.  The value in the dead then-branch records the defaults
the spec documents (text-only weights, threshold 0.1); it is unreachable
because the attribute is absent. -/
def get_sentiment_weights (db : DB) : Except String (Rat × Rat × Rat) :=
  match db.sentiment_config with
  | some c => .ok (c.rating_weight, c.text_weight, c.threshold)
  | none =>
      if "SENTIMENT_RATING_WEIGHT" ∈ Config_class_attributes then
        .ok (0, 1, 1/10)
      else
        .error "AttributeError: type object Config has no attribute SENTIMENT_RATING_WEIGHT"

/-- Modelled from the spec: `check_and_send_alerts` from
reviewhound/alerts.py, which is not in the snapshot.  Spec section 4.3:
load all enabled notification rules of the business of the review; a
rule fires iff the rating of the review is present and numerically at
most the rule threshold; firing invokes the send capability once per
(rule, review).  Sends are recorded in `DB.sent`. -/
def check_and_send_alerts (db : DB) (business : Business) (review : Review) : DB :=
  let rules := db.alert_configs.filter
    (fun a => decide (a.business_id = business.id) && a.enabled)
  let fired := rules.filter
    (fun a =>
      match review.rating with
      | some r => decide (r ≤ a.negative_threshold)
      | none => false)
  { db with sent := db.sent ++ fired.map (fun a => (a.id, review.id)) }

/-- Aggregate statistics returned by `calculate_review_stats`, one field
per key of the Python dict.  The by_source dict is embedded as an
association list in insertion order. -/
structure ReviewStats where
  total : Nat
  avg_rating : Rat
  positive : Nat
  negative : Nat
  neutral : Nat
  positive_pct : Rat
  negative_pct : Rat
  neutral_pct : Rat
  by_source : List (String × Nat)
deriving DecidableEq, Repr

/-- One step of building the by_source dict:
by_source[r.source] = by_source.get(r.source, 0) + 1. -/
def bump_source (m : List (String × Nat)) (s : String) : List (String × Nat) :=
  match m with
  | [] => [(s, 1)]
  | (k, v) :: rest =>
      if k = s then (k, v + 1) :: rest else (k, v) :: bump_source rest s

/-- Lookup in the association list embedding of a Python dict. -/
def alist_find (m : List (String × Nat)) (s : String) : Option Nat :=
  match m with
  | [] => none
  | (k, v) :: rest => if k = s then some v else alist_find rest s

/-- `calculate_review_stats` from reviewhound/services.py, translated
clause by clause; sums and quotients of ratings are exact rationals. -/
def calculate_review_stats (reviews : List Review) : ReviewStats :=
  let total := reviews.length
  if total = 0 then
    { total := 0, avg_rating := 0, positive := 0, negative := 0, neutral := 0,
      positive_pct := 0, negative_pct := 0, neutral_pct := 0, by_source := [] }
  else
    let rated := reviews.filter (fun r => r.rating.isSome)
    let avg_rating :=
      if rated ≠ [] then (rated.map (fun r => r.rating.getD 0)).sum / rated.length
      else 0
    let positive := (reviews.filter (fun r => decide (r.sentiment_label = "positive"))).length
    let negative := (reviews.filter (fun r => decide (r.sentiment_label = "negative"))).length
    let neutral := (reviews.filter (fun r => decide (r.sentiment_label = "neutral"))).length
    let by_source := reviews.foldl (fun m r => bump_source m r.source) []
    { total := total,
      avg_rating := avg_rating,
      positive := positive,
      negative := negative,
      neutral := neutral,
      positive_pct := if total ≠ 0 then (positive : Rat) / total * 100 else 0,
      negative_pct := if total ≠ 0 then (negative : Rat) / total * 100 else 0,
      neutral_pct := if total ≠ 0 then (neutral : Rat) / total * 100 else 0,
      by_source := by_source }

/-- Observable events of one ingest run, used to state the ordering
requirements of the pipeline (spec sections 4.2 and 4.4): the dedup
existence check for a candidate, skipping an already-stored candidate,
adding a new Review, flushing it (which makes its identifier visible),
and invoking the alert evaluator for it. -/
inductive Ev
  | dedup_check (source external_id : String)
  | skip_existing (source external_id : String)
  | add_review (id : Nat)
  | flush_review (id : Nat)
  | alert_check (id : Nat)
deriving DecidableEq, Repr

/-- The dedup existence check of services.py (lines 58-61):
session.query(Review).filter(Review.source == source,
Review.external_id == review_data["external_id"]).first().
The query is global over all stored Reviews, not restricted to the
business; with the default autoflush it also sees the Reviews added
earlier in the same run. -/
def find_existing (reviews : List Review) (source external_id : String) : Option Review :=
  reviews.find? (fun r => decide (r.source = source ∧ r.external_id = external_id))

/-- The error text of a unique-constraint violation raised by the store
when inserting a Review whose (source, external_id) key is in
`DB.conflicts`. -/
def integrity_error : String :=
  "IntegrityError: UNIQUE constraint failed: reviews.source, reviews.external_id"

/-- The shared candidate loop of `save_scraped_reviews` (services.py
lines 57-91) and `run_scraper_for_business` (services.py lines 135-169);
the two Python functions repeat this block verbatim.  For each candidate:
run the dedup existence check and skip when a Review with the same
(source, external_id) key is already stored; otherwise score the
candidate with the weighted analyzer, add the Review, and, when
send_alerts is set, flush it and invoke the alert evaluator before the
next candidate.

The store only sees an added Review at a flush.  With send_alerts set,
every admitted Review is flushed explicitly right away; without it, the
insert stays pending in the session until the next dedup query
autoflushes it (the SQLAlchemy session default).  The `pending`
argument carries the keys of the Reviews added but not yet flushed, and
a key in `DB.conflicts` makes the store reject the insert with
`integrity_error` at exactly those points: the explicit flush of the
candidate just added, or the autoflush at the start of the next
candidate of the dedup query.  A conflicting insert still pending when
the candidate list ends is NOT rejected by this loop: it is returned in
the pending component and the violation surfaces only at the session
commit, after (and outside) the ingest functions and the sweep drivers.
Returns the final session state, the new-review count or the propagated
error, the keys still pending, and the event trace. -/
def ingest_loop (pol : String → Rat) (business : Business) (source : String)
    (rating_weight text_weight threshold : Rat) (send_alerts : Bool) :
    List Candidate → DB → Nat → List (String × String) →
      DB × Except String Nat × List (String × String) × List Ev
  | [], db, count, pending => (db, .ok count, pending, [])
  | c :: rest, db, count, pending =>
      let ev := Ev.dedup_check source c.external_id
      if pending.any (fun k => decide (k ∈ db.conflicts)) then
        (db, .error integrity_error, pending, [ev])
      else
        match find_existing db.reviews source c.external_id with
        | some _ =>
            let r := ingest_loop pol business source rating_weight text_weight threshold
              send_alerts rest db count []
            (r.1, r.2.1, r.2.2.1, ev :: Ev.skip_existing source c.external_id :: r.2.2.2)
        | none =>
            let sl := analyze_review pol (c.text.getD "") c.rating
              rating_weight text_weight threshold
            let id := db.next_review_id
            let review : Review :=
              { id := id, business_id := business.id, source := source,
                external_id := c.external_id, author_name := c.author_name,
                rating := c.rating, text := c.text, review_date := c.review_date,
                sentiment_score := sl.1, sentiment_label := sl.2 }
            let db1 := { db with
              reviews := db.reviews ++ [review]
              next_review_id := id + 1 }
            if send_alerts then
              if (source, c.external_id) ∈ db.conflicts then
                (db1, .error integrity_error, [(source, c.external_id)],
                  [ev, Ev.add_review id])
              else
                let db2 := check_and_send_alerts db1 business review
                let r := ingest_loop pol business source rating_weight text_weight threshold
                  send_alerts rest db2 (count + 1) []
                (r.1, r.2.1, r.2.2.1,
                  ev :: Ev.add_review id :: Ev.flush_review id :: Ev.alert_check id :: r.2.2.2)
            else
              let r := ingest_loop pol business source rating_weight text_weight threshold
                send_alerts rest db1 (count + 1) [(source, c.external_id)]
              (r.1, r.2.1, r.2.2.1, ev :: Ev.add_review id :: r.2.2.2)

/-- A fresh ScrapeLog in "running" state, persisted at the start of an
ingest attempt. -/
def running_log (db : DB) (business : Business) (source : String) : ScrapeLog :=
  { business_id := business.id, source := source, status := "running",
    started_at := db.clock, completed_at := none, reviews_found := none,
    error_message := none }

/-- Replace the ScrapeLog appended at the start of the current run (the
last element of the log list) by its finalized version; the loop never
touches the log list in between. -/
def finalize_log (logs : List ScrapeLog) (lg : ScrapeLog) : List ScrapeLog :=
  logs.dropLast ++ [lg]

/-- `save_scraped_reviews` from reviewhound/services.py (lines 26-97):
create and flush a running ScrapeLog, read the sentiment weights, run
the candidate loop, and on normal completion finalize the log as
"success" with the new-review count and completion time.  The function
has no exception handler: an AttributeError from
`get_sentiment_weights` or a persistence error from the loop propagates
to the caller and leaves the log in "running" state.  The session is
taken to enter the call with no unflushed review insert pending (the
initial log flush of line 52 would reject one otherwise); a conflicting
insert still pending when the loop ends surfaces only at the commit
outside this function.  Also returns the event trace of the loop. -/
def save_scraped_reviews (db : DB) (pol : String → Rat) (business : Business)
    (source : String) (reviews_data : List Candidate) (send_alerts : Bool) :
    DB × Except String (ScrapeLog × Nat) × List Ev :=
  let log0 := running_log db business source
  let db0 := { db with logs := db.logs ++ [log0] }
  match get_sentiment_weights db0 with
  | .error e => (db0, .error e, [])
  | .ok (rw, tw, th) =>
      match ingest_loop pol business source rw tw th send_alerts reviews_data db0 0 [] with
      | (db1, .error e, _, tr) => (db1, .error e, tr)
      | (db1, .ok new_count, _, tr) =>
          let log1 := { log0 with
            status := "success"
            reviews_found := some new_count
            completed_at := some db1.clock }
          ({ db1 with logs := finalize_log db1.logs log1 }, .ok (log1, new_count), tr)

/-- `run_scraper_for_business` from reviewhound/services.py (lines
100-182): create and flush a running ScrapeLog, then inside the try
block fetch the candidates from the scraper, read the sentiment weights
and run the candidate loop; on normal completion the log is finalized
"success".  Any exception inside the try block (adapter failure,
AttributeError from get_sentiment_weights, persistence error from the
loop) is caught, the log is finalized "failed" with the error text and
a completion time, and the exception is re-raised to the caller.  The
adapter call scraper.scrape(url) is embedded by its outcome
`scrape_result`. -/
def run_scraper_for_business (db : DB) (pol : String → Rat) (business : Business)
    (source : String) (scrape_result : Except String (List Candidate))
    (send_alerts : Bool) : DB × Except String (ScrapeLog × Nat) :=
  let log0 := running_log db business source
  let db0 := { db with logs := db.logs ++ [log0] }
  match scrape_result with
  | .error e =>
      let logf := { log0 with
        status := "failed"
        error_message := some e
        completed_at := some db0.clock }
      ({ db0 with logs := finalize_log db0.logs logf }, .error e)
  | .ok reviews_data =>
      match get_sentiment_weights db0 with
      | .error e =>
          let logf := { log0 with
            status := "failed"
            error_message := some e
            completed_at := some db0.clock }
          ({ db0 with logs := finalize_log db0.logs logf }, .error e)
      | .ok (rw, tw, th) =>
          match ingest_loop pol business source rw tw th send_alerts reviews_data db0 0 [] with
          | (db1, .error e, _, _) =>
              let logf := { log0 with
                status := "failed"
                error_message := some e
                completed_at := some db1.clock }
              ({ db1 with logs := finalize_log db1.logs logf }, .error e)
          | (db1, .ok new_count, _, _) =>
              let log1 := { log0 with
                status := "success"
                reviews_found := some new_count
                completed_at := some db1.clock }
              ({ db1 with logs := finalize_log db1.logs log1 }, .ok (log1, new_count))

/-- The scraper variants a sweep can select.  TrustPilotScraper,
BBBScraper and YelpScraper carry the source tags "trustpilot", "bbb"
and "yelp" (reviewhound/scrapers/).  GooglePlacesScraper and
YelpAPIScraper are not in the snapshot; they are the provider-API
variants the spec describes (section 9, tagged variant
ApiSource(identifier, key)). -/
inductive ScraperKind
  | google_api (api_key : String)
  | yelp_api (api_key : String)
  | yelp_web
  | trustpilot_web
  | bbb_web
deriving DecidableEq, Repr

/-- The `source` attribute of each scraper class.  The web scraper tags
are from the snapshot; the API scraper tags are modelled (the classes
are not in the snapshot) and no theorem below depends on their exact
strings. -/
def ScraperKind.source : ScraperKind → String
  | .google_api _ => "google_places"
  | .yelp_api _ => "yelp"
  | .yelp_web => "yelp"
  | .trustpilot_web => "trustpilot"
  | .bbb_web => "bbb"

/-- `get_api_config` from reviewhound/web/routes.py (lines 18-24): the
first stored APIConfig for the provider that is enabled. -/
def get_api_config (db : DB) (provider : String) : Option APIConfig :=
  db.api_configs.find? (fun c => decide (c.provider = provider) && c.enabled)

/-- The scraper-selection block of `scrape_business_sources`
(reviewhound/web/routes.py lines 33-57): the Google Places API source
when an enabled google_places APIConfig and a google_place_id both
exist (no web fallback); the Yelp Fusion API source when an enabled
yelp_fusion APIConfig and a yelp_business_id both exist, else the Yelp
web source when yelp_url is set; and the TrustPilot and BBB web sources
whenever their URLs are set. -/
def build_scrapers (db : DB) (b : Business) : List (ScraperKind × String) :=
  (match get_api_config db "google_places" with
   | some cfg =>
       if truthy b.google_place_id then
         [(ScraperKind.google_api cfg.api_key, b.google_place_id.getD "")]
       else []
   | none => []) ++
  (match get_api_config db "yelp_fusion" with
   | some cfg =>
       if truthy b.yelp_business_id then
         [(ScraperKind.yelp_api cfg.api_key, b.yelp_business_id.getD "")]
       else if truthy b.yelp_url then [(ScraperKind.yelp_web, b.yelp_url.getD "")]
       else []
   | none =>
       if truthy b.yelp_url then [(ScraperKind.yelp_web, b.yelp_url.getD "")]
       else []) ++
  (if truthy b.trustpilot_url then [(ScraperKind.trustpilot_web, b.trustpilot_url.getD "")]
   else []) ++
  (if truthy b.bbb_url then [(ScraperKind.bbb_web, b.bbb_url.getD "")] else [])

/-- `scrape_business_sources` from reviewhound/web/routes.py (lines
27-71), the per-business unit of the web sweep: build the scraper list,
run each scraper through `run_scraper_for_business`, accumulate the
new-review counts of the successful sources, and catch every exception
of a failed source, recording only its source tag.  The adapter
capability is embedded as `fetch`, mapping a scraper and its identifier
to the outcome of scraper.scrape(identifier).  Returns the session
state, total_new and failed_sources. -/
def scrape_business_sources (db : DB) (pol : String → Rat)
    (fetch : ScraperKind → String → Except String (List Candidate))
    (b : Business) (send_alerts : Bool) : DB × Nat × List String :=
  (build_scrapers db b).foldl
    (fun acc si =>
      match run_scraper_for_business acc.1 pol b si.1.source (fetch si.1 si.2) send_alerts with
      | (db1, .ok (_, n)) => (db1, acc.2.1 + n, acc.2.2)
      | (db1, .error _) => (db1, acc.2.1, acc.2.2 ++ [si.1.source]))
    (db, 0, [])

/-- The scraper-selection block of `_scrape_business_job`
(reviewhound/scheduler.py lines 31-37): the scheduler sweep consults
only the three URL columns and never the APIConfig table. -/
def scheduler_scrapers (b : Business) : List (ScraperKind × String) :=
  (if truthy b.trustpilot_url then [(ScraperKind.trustpilot_web, b.trustpilot_url.getD "")]
   else []) ++
  (if truthy b.bbb_url then [(ScraperKind.bbb_web, b.bbb_url.getD "")] else []) ++
  (if truthy b.yelp_url then [(ScraperKind.yelp_web, b.yelp_url.getD "")] else [])

/-- The candidate loop of `_run_scraper_job` (reviewhound/scheduler.py
lines 64-89): same dedup check, but scoring is the one-argument
text-only call analyze_review(review_data.get("text", "")), and each
new Review is flushed and fed to the alert evaluator unconditionally. -/
def scheduler_ingest_loop (pol : String → Rat) (business : Business) (source : String) :
    List Candidate → DB → Nat → DB × Except String Nat
  | [], db, count => (db, .ok count)
  | c :: rest, db, count =>
      match find_existing db.reviews source c.external_id with
      | some _ => scheduler_ingest_loop pol business source rest db count
      | none =>
          let sl := analyze_review_text pol (c.text.getD "")
          let id := db.next_review_id
          let review : Review :=
            { id := id, business_id := business.id, source := source,
              external_id := c.external_id, author_name := c.author_name,
              rating := c.rating, text := c.text, review_date := c.review_date,
              sentiment_score := sl.1, sentiment_label := sl.2 }
          let db1 := { db with
            reviews := db.reviews ++ [review]
            next_review_id := id + 1 }
          if (source, c.external_id) ∈ db.conflicts then
            (db1, .error integrity_error)
          else
            scheduler_ingest_loop pol business source rest
              (check_and_send_alerts db1 business review) (count + 1)

/-- `_run_scraper_job` from reviewhound/scheduler.py (lines 47-100):
create and flush a running ScrapeLog, then run the try block; every
exception inside it (adapter failure or persistence error) is caught,
the log is finalized "failed" with the error text, the failure is
printed, and the function returns normally: nothing is re-raised and
the return value carries no error information. -/
def run_scraper_job (db : DB) (pol : String → Rat) (business : Business)
    (source : String) (scrape_result : Except String (List Candidate)) : DB :=
  let log0 := running_log db business source
  let db0 := { db with logs := db.logs ++ [log0] }
  match scrape_result with
  | .error e =>
      let logf := { log0 with
        status := "failed"
        error_message := some e
        completed_at := some db0.clock }
      { db0 with logs := finalize_log db0.logs logf }
  | .ok reviews_data =>
      match scheduler_ingest_loop pol business source reviews_data db0 0 with
      | (db1, .error e) =>
          let logf := { log0 with
            status := "failed"
            error_message := some e
            completed_at := some db1.clock }
          { db1 with logs := finalize_log db1.logs logf }
      | (db1, .ok n) =>
          let log1 := { log0 with
            status := "success"
            reviews_found := some n
            completed_at := some db1.clock }
          { db1 with logs := finalize_log db1.logs log1 }

/-- `_scrape_business_job` from reviewhound/scheduler.py (lines 27-44):
run every URL-configured scraper of the business; a business with no
configured URLs only prints a notice and returns. -/
def scrape_business_job (db : DB) (pol : String → Rat)
    (fetch : ScraperKind → String → Except String (List Candidate))
    (b : Business) : DB :=
  (scheduler_scrapers b).foldl
    (fun acc si => run_scraper_job acc pol b si.1.source (fetch si.1 si.2)) db

/-- `scrape_all_businesses` from reviewhound/scheduler.py (lines 14-24):
the scheduler sweep over every stored business.  Its return value
carries no failure information of any kind. -/
def scrape_all_businesses (db : DB) (pol : String → Rat)
    (fetch : ScraperKind → String → Except String (List Candidate)) : DB :=
  db.businesses.foldl (fun acc b => scrape_business_job acc pol fetch b) db

/-! ### Helper lemmas -/

theorem finalize_log_concat (l : List ScrapeLog) (a x : ScrapeLog) :
    finalize_log (l ++ [a]) x = l ++ [x] := by
  simp [finalize_log]

theorem alist_find_bump (m : List (String × Nat)) (s t : String) :
    alist_find (bump_source m t) s =
      if t = s then some ((alist_find m s).getD 0 + 1) else alist_find m s := by
  induction m with
  | nil => by_cases h : t = s <;> simp [bump_source, alist_find, h]
  | cons kv rest ih =>
      obtain ⟨k, v⟩ := kv
      by_cases hk : k = t
      · subst hk
        by_cases hs : k = s
        · subst hs; simp [bump_source, alist_find]
        · simp [bump_source, alist_find, hs]
      · by_cases hs : k = s
        · subst hs
          have ht : ¬(t = k) := fun h => hk h.symm
          simp [bump_source, alist_find, hk, ht]
        · simp [bump_source, alist_find, hk, hs, ih]

theorem alist_find_foldl_bump (rs : List Review) :
    ∀ (m : List (String × Nat)) (s : String),
    alist_find (rs.foldl (fun acc r => bump_source acc r.source) m) s =
      match alist_find m s with
      | some v => some (v + (rs.filter (fun r => decide (r.source = s))).length)
      | none =>
          if (rs.filter (fun r => decide (r.source = s))).length = 0 then none
          else some ((rs.filter (fun r => decide (r.source = s))).length) := by
  induction rs with
  | nil => intro m s; cases hm : alist_find m s <;> simp [hm]
  | cons r rest ih =>
      intro m s
      simp only [List.foldl_cons]
      rw [ih]
      by_cases h : r.source = s
      · rw [alist_find_bump]
        rw [if_pos h]
        cases hm : alist_find m s with
        | none =>
            simp only [Option.getD_none, List.filter_cons, h]
            simp
            omega
        | some v =>
            simp only [Option.getD_some, List.filter_cons, h]
            simp
            omega
      · rw [alist_find_bump]
        rw [if_neg h]
        cases hm : alist_find m s with
        | none => simp [List.filter_cons, h]
        | some v => simp [List.filter_cons, h]

theorem find_existing_eq_none (reviews : List Review) (source x : String)
    (h : find_existing reviews source x = none) :
    ∀ r0 ∈ reviews, ¬(r0.source = source ∧ r0.external_id = x) := by
  intro r0 h0
  simp only [find_existing] at h
  have hall := List.find?_eq_none.mp h r0 h0
  simpa using hall

theorem find_existing_some (reviews : List Review) (source x : String) (r0 : Review)
    (h : find_existing reviews source x = some r0) :
    r0 ∈ reviews ∧ r0.source = source ∧ r0.external_id = x := by
  simp only [find_existing] at h
  have hp := List.find?_some h
  simp at hp
  exact ⟨List.mem_of_find?_eq_some h, hp.1, hp.2⟩

theorem find_existing_of_mem (reviews : List Review) (source x : String)
    (h : ∃ r1 ∈ reviews, r1.source = source ∧ r1.external_id = x) :
    ∃ r0, find_existing reviews source x = some r0 := by
  obtain ⟨r1, hm, hp⟩ := h
  have hs : (find_existing reviews source x).isSome := by
    simp only [find_existing]
    rw [List.find?_isSome]
    exact ⟨r1, hm, by simpa using hp⟩
  exact Option.isSome_iff_exists.mp hs

theorem check_alerts_fields (db : DB) (b : Business) (r : Review) :
    (check_and_send_alerts db b r).reviews = db.reviews ∧
    (check_and_send_alerts db b r).logs = db.logs ∧
    (check_and_send_alerts db b r).sentiment_config = db.sentiment_config ∧
    (check_and_send_alerts db b r).conflicts = db.conflicts ∧
    (check_and_send_alerts db b r).clock = db.clock :=
  ⟨rfl, rfl, rfl, rfl, rfl⟩

/-- Structural specification of the candidate loop: it only ever appends
Reviews, every appended Review carries the source tag of the run and a
(source, external_id) key that was not stored when the loop started,
each appended Review originates from a candidate of the run and carries
the weighted sentiment of that candidate, the log list and the
configuration are untouched, and on normal completion the returned
count is the starting count plus the number of appended Reviews. -/
theorem ingest_loop_spec (pol : String → Rat) (b : Business) (source : String)
    (rw tw th : Rat) (sa : Bool) :
    ∀ (data : List Candidate) (db : DB) (count : Nat)
      (pending : List (String × String)),
    ∃ new : List Review,
      (ingest_loop pol b source rw tw th sa data db count pending).1.reviews =
        db.reviews ++ new ∧
      (ingest_loop pol b source rw tw th sa data db count pending).1.logs = db.logs ∧
      (ingest_loop pol b source rw tw th sa data db count pending).1.sentiment_config =
        db.sentiment_config ∧
      (ingest_loop pol b source rw tw th sa data db count pending).1.conflicts =
        db.conflicts ∧
      (ingest_loop pol b source rw tw th sa data db count pending).1.clock = db.clock ∧
      (∀ n, (ingest_loop pol b source rw tw th sa data db count pending).2.1 = .ok n →
        n = count + new.length) ∧
      ∀ r1 ∈ new, r1.source = source ∧ r1.business_id = b.id ∧
        (∀ r0 ∈ db.reviews, ¬(r0.source = source ∧ r0.external_id = r1.external_id)) ∧
        ∃ c ∈ data, r1.external_id = c.external_id ∧ r1.rating = c.rating ∧
          (r1.sentiment_score, r1.sentiment_label) =
            analyze_review pol (c.text.getD "") c.rating rw tw th := by
  intro data
  induction data with
  | nil =>
      intro db count pending
      refine ⟨[], by simp [ingest_loop], rfl, rfl, rfl, rfl, ?_, by simp⟩
      intro n hn
      have hcn : count = n := by simpa [ingest_loop] using hn
      simp [hcn]
  | cons c rest ih =>
      intro db count pending
      by_cases hp : pending.any (fun k => decide (k ∈ db.conflicts)) = true
      · -- the autoflush of the dedup query rejects a pending insert
        refine ⟨[], ?_, ?_, ?_, ?_, ?_, ?_, by simp⟩
        · simp [ingest_loop, hp]
        · simp [ingest_loop, hp]
        · simp [ingest_loop, hp]
        · simp [ingest_loop, hp]
        · simp [ingest_loop, hp]
        · intro n hn
          simp [ingest_loop, hp] at hn
      · rcases hfe : find_existing db.reviews source c.external_id with _ | r0
        · -- candidate not yet stored
          cases sa with
          | true =>
              by_cases hc : (source, c.external_id) ∈ db.conflicts
              · -- the explicit flush rejects the insert: the loop raises
                refine ⟨[{ id := db.next_review_id, business_id := b.id, source := source,
                           external_id := c.external_id, author_name := c.author_name,
                           rating := c.rating, text := c.text, review_date := c.review_date,
                           sentiment_score := (analyze_review pol (c.text.getD "") c.rating rw tw th).1,
                           sentiment_label := (analyze_review pol (c.text.getD "") c.rating rw tw th).2 }],
                        ?_, ?_, ?_, ?_, ?_, ?_, ?_⟩
                · simp [ingest_loop, hp, hfe, hc]
                · simp [ingest_loop, hp, hfe, hc]
                · simp [ingest_loop, hp, hfe, hc]
                · simp [ingest_loop, hp, hfe, hc]
                · simp [ingest_loop, hp, hfe, hc]
                · intro n hn
                  simp [ingest_loop, hp, hfe, hc] at hn
                · intro r1 hr1
                  rw [List.mem_singleton] at hr1
                  subst hr1
                  refine ⟨rfl, rfl, find_existing_eq_none _ _ _ hfe, c,
                    List.mem_cons_self _ _, rfl, rfl, rfl⟩
              · set sl := analyze_review pol (c.text.getD "") c.rating rw tw th with hsl
                set review : Review := { id := db.next_review_id, business_id := b.id, source := source, external_id := c.external_id, author_name := c.author_name, rating := c.rating, text := c.text, review_date := c.review_date, sentiment_score := sl.1, sentiment_label := sl.2 } with hrev
                set db1 : DB := { db with reviews := db.reviews ++ [review], next_review_id := db.next_review_id + 1 } with hdb1
                set db2 : DB := check_and_send_alerts db1 b review with hdb2
                obtain ⟨new, h1, h2, h3, h4, h5, h6, h7⟩ := ih db2 (count + 1) []
                have hrw : (ingest_loop pol b source rw tw th true (c :: rest) db count pending).1 =
                    (ingest_loop pol b source rw tw th true rest db2 (count + 1) []).1 := by
                  simp [ingest_loop, hp, hfe, hc, hdb2, hdb1, hrev, hsl]
                have hrw2 : (ingest_loop pol b source rw tw th true (c :: rest) db count pending).2.1 =
                    (ingest_loop pol b source rw tw th true rest db2 (count + 1) []).2.1 := by
                  simp [ingest_loop, hp, hfe, hc, hdb2, hdb1, hrev, hsl]
                have hfields := check_alerts_fields db1 b review
                refine ⟨review :: new, ?_, ?_, ?_, ?_, ?_, ?_, ?_⟩
                · rw [hrw, h1, hfields.1]
                  simp [hdb1]
                · rw [hrw, h2, hfields.2.1]
                · rw [hrw, h3, hfields.2.2.1]
                · rw [hrw, h4, hfields.2.2.2.1]
                · rw [hrw, h5, hfields.2.2.2.2]
                · intro n hn
                  rw [hrw2] at hn
                  have := h6 n hn
                  simp only [List.length_cons]
                  omega
                · intro r1 hr1
                  rcases List.mem_cons.mp hr1 with hr1 | hr1
                  · subst hr1
                    refine ⟨rfl, rfl, find_existing_eq_none _ _ _ hfe, c,
                      List.mem_cons_self _ _, rfl, rfl, rfl⟩
                  · obtain ⟨hs, hb2, hfresh, c2, hc2, hx, hy, hz⟩ := h7 r1 hr1
                    refine ⟨hs, hb2, ?_, c2, List.mem_cons_of_mem _ hc2, hx, hy, hz⟩
                    intro r0 h0
                    apply hfresh r0
                    simp [hdb2, hfields.1, hdb1]
                    exact Or.inl h0
          | false =>
              set sl := analyze_review pol (c.text.getD "") c.rating rw tw th with hsl
              set review : Review := { id := db.next_review_id, business_id := b.id, source := source, external_id := c.external_id, author_name := c.author_name, rating := c.rating, text := c.text, review_date := c.review_date, sentiment_score := sl.1, sentiment_label := sl.2 } with hrev
              set db1 : DB := { db with reviews := db.reviews ++ [review], next_review_id := db.next_review_id + 1 } with hdb1
              obtain ⟨new, h1, h2, h3, h4, h5, h6, h7⟩ :=
                ih db1 (count + 1) [(source, c.external_id)]
              have hrw : (ingest_loop pol b source rw tw th false (c :: rest) db count pending).1 =
                  (ingest_loop pol b source rw tw th false rest db1 (count + 1)
                    [(source, c.external_id)]).1 := by
                simp [ingest_loop, hp, hfe, hdb1, hrev, hsl]
              have hrw2 : (ingest_loop pol b source rw tw th false (c :: rest) db count pending).2.1 =
                  (ingest_loop pol b source rw tw th false rest db1 (count + 1)
                    [(source, c.external_id)]).2.1 := by
                simp [ingest_loop, hp, hfe, hdb1, hrev, hsl]
              refine ⟨review :: new, ?_, ?_, ?_, ?_, ?_, ?_, ?_⟩
              · rw [hrw, h1]
                simp [hdb1]
              · rw [hrw, h2]
              · rw [hrw, h3]
              · rw [hrw, h4]
              · rw [hrw, h5]
              · intro n hn
                rw [hrw2] at hn
                have := h6 n hn
                simp only [List.length_cons]
                omega
              · intro r1 hr1
                rcases List.mem_cons.mp hr1 with hr1 | hr1
                · subst hr1
                  refine ⟨rfl, rfl, find_existing_eq_none _ _ _ hfe, c,
                    List.mem_cons_self _ _, rfl, rfl, rfl⟩
                · obtain ⟨hs, hb2, hfresh, c2, hc2, hx, hy, hz⟩ := h7 r1 hr1
                  refine ⟨hs, hb2, ?_, c2, List.mem_cons_of_mem _ hc2, hx, hy, hz⟩
                  intro r0 h0
                  apply hfresh r0
                  simp [hdb1]
                  exact Or.inl h0
        · -- candidate already stored: skipped
          obtain ⟨new, h1, h2, h3, h4, h5, h6, h7⟩ := ih db count []
          have hrw : (ingest_loop pol b source rw tw th sa (c :: rest) db count pending).1 =
              (ingest_loop pol b source rw tw th sa rest db count []).1 := by
            simp [ingest_loop, hp, hfe]
          have hrw2 : (ingest_loop pol b source rw tw th sa (c :: rest) db count pending).2.1 =
              (ingest_loop pol b source rw tw th sa rest db count []).2.1 := by
            simp [ingest_loop, hp, hfe]
          refine ⟨new, ?_, ?_, ?_, ?_, ?_, ?_, ?_⟩
          · rw [hrw, h1]
          · rw [hrw, h2]
          · rw [hrw, h3]
          · rw [hrw, h4]
          · rw [hrw, h5]
          · intro n hn
            rw [hrw2] at hn
            exact h6 n hn
          · intro r1 hr1
            obtain ⟨hs, hb2, hfresh, c2, hc2, hx, hy, hz⟩ := h7 r1 hr1
            exact ⟨hs, hb2, hfresh, c2, List.mem_cons_of_mem _ hc2, hx, hy, hz⟩

/-- When no candidate key of the run and no pending key is in the
conflict set, the loop completes normally. -/
theorem ingest_loop_ok (pol : String → Rat) (b : Business) (source : String)
    (rw tw th : Rat) (sa : Bool) :
    ∀ (data : List Candidate) (db : DB) (count : Nat)
      (pending : List (String × String)),
    (∀ c ∈ data, (source, c.external_id) ∉ db.conflicts) →
    (∀ k ∈ pending, k ∉ db.conflicts) →
    ∃ n, (ingest_loop pol b source rw tw th sa data db count pending).2.1 = .ok n := by
  intro data
  induction data with
  | nil => intro db count pending _ _; exact ⟨count, by simp [ingest_loop]⟩
  | cons c rest ih =>
      intro db count pending hconf hpend
      have hp : pending.any (fun k => decide (k ∈ db.conflicts)) = false := by
        rw [List.any_eq_false]
        intro k hk
        simpa using hpend k hk
      rcases hfe : find_existing db.reviews source c.external_id with _ | r0
      · have hc : (source, c.external_id) ∉ db.conflicts :=
          hconf c (List.mem_cons_self _ _)
        cases sa with
        | true =>
            obtain ⟨n, hn⟩ := ih
              (check_and_send_alerts { db with reviews := db.reviews ++ [{ id := db.next_review_id, business_id := b.id, source := source, external_id := c.external_id, author_name := c.author_name, rating := c.rating, text := c.text, review_date := c.review_date, sentiment_score := (analyze_review pol (c.text.getD "") c.rating rw tw th).1, sentiment_label := (analyze_review pol (c.text.getD "") c.rating rw tw th).2 }], next_review_id := db.next_review_id + 1 } b { id := db.next_review_id, business_id := b.id, source := source, external_id := c.external_id, author_name := c.author_name, rating := c.rating, text := c.text, review_date := c.review_date, sentiment_score := (analyze_review pol (c.text.getD "") c.rating rw tw th).1, sentiment_label := (analyze_review pol (c.text.getD "") c.rating rw tw th).2 })
              (count + 1) []
              (by intro c2 hc2; exact hconf c2 (List.mem_cons_of_mem _ hc2))
              (by intro k hk; simp at hk)
            exact ⟨n, by simpa [ingest_loop, hp, hfe, hc] using hn⟩
        | false =>
            obtain ⟨n, hn⟩ := ih
              { db with reviews := db.reviews ++ [{ id := db.next_review_id, business_id := b.id, source := source, external_id := c.external_id, author_name := c.author_name, rating := c.rating, text := c.text, review_date := c.review_date, sentiment_score := (analyze_review pol (c.text.getD "") c.rating rw tw th).1, sentiment_label := (analyze_review pol (c.text.getD "") c.rating rw tw th).2 }], next_review_id := db.next_review_id + 1 }
              (count + 1) [(source, c.external_id)]
              (by intro c2 hc2; exact hconf c2 (List.mem_cons_of_mem _ hc2))
              (by intro k hk; rw [List.mem_singleton] at hk; subst hk; exact hc)
            exact ⟨n, by simpa [ingest_loop, hp, hfe] using hn⟩
      · obtain ⟨n, hn⟩ := ih db count []
          (fun c2 hc2 => hconf c2 (List.mem_cons_of_mem _ hc2))
          (by intro k hk; simp at hk)
        exact ⟨n, by simpa [ingest_loop, hp, hfe] using hn⟩

/-- On normal completion every candidate of the run has a stored Review
with its (source, external_id) key. -/
theorem ingest_loop_covers (pol : String → Rat) (b : Business) (source : String)
    (rw tw th : Rat) (sa : Bool) :
    ∀ (data : List Candidate) (db : DB) (count : Nat)
      (pending : List (String × String)) (n : Nat),
    (ingest_loop pol b source rw tw th sa data db count pending).2.1 = .ok n →
    ∀ c ∈ data,
      ∃ r1 ∈ (ingest_loop pol b source rw tw th sa data db count pending).1.reviews,
        r1.source = source ∧ r1.external_id = c.external_id := by
  intro data
  induction data with
  | nil => intro db count pending n _ c hc; cases hc
  | cons c rest ih =>
      intro db count pending n hok c2 hc2
      by_cases hp : pending.any (fun k => decide (k ∈ db.conflicts)) = true
      · exfalso
        simp [ingest_loop, hp] at hok
      · rcases hfe : find_existing db.reviews source c.external_id with _ | r0
        · cases sa with
          | true =>
              by_cases hc : (source, c.external_id) ∈ db.conflicts
              · exfalso
                simp [ingest_loop, hp, hfe, hc] at hok
              · set review : Review := { id := db.next_review_id, business_id := b.id, source := source, external_id := c.external_id, author_name := c.author_name, rating := c.rating, text := c.text, review_date := c.review_date, sentiment_score := (analyze_review pol (c.text.getD "") c.rating rw tw th).1, sentiment_label := (analyze_review pol (c.text.getD "") c.rating rw tw th).2 } with hrev
                set db2 : DB := check_and_send_alerts { db with reviews := db.reviews ++ [review], next_review_id := db.next_review_id + 1 } b review with hdb2
                have hrw : (ingest_loop pol b source rw tw th true (c :: rest) db count pending).1 =
                    (ingest_loop pol b source rw tw th true rest db2 (count + 1) []).1 := by
                  simp [ingest_loop, hp, hfe, hc, hdb2, hrev]
                have hrw2 : (ingest_loop pol b source rw tw th true (c :: rest) db count pending).2.1 =
                    (ingest_loop pol b source rw tw th true rest db2 (count + 1) []).2.1 := by
                  simp [ingest_loop, hp, hfe, hc, hdb2, hrev]
                rw [hrw2] at hok
                obtain ⟨new, h1, _, _, _, _, _, _⟩ :=
                  ingest_loop_spec pol b source rw tw th true rest db2 (count + 1) []
                rcases List.mem_cons.mp hc2 with hc2 | hc2
                · subst hc2
                  refine ⟨review, ?_, rfl, rfl⟩
                  rw [hrw, h1]
                  apply List.mem_append_left
                  simp [hdb2, hrev, check_and_send_alerts]
                · obtain ⟨r1, hm, hpr⟩ := ih db2 (count + 1) [] n hok c2 hc2
                  exact ⟨r1, by rw [hrw]; exact hm, hpr⟩
          | false =>
              set review : Review := { id := db.next_review_id, business_id := b.id, source := source, external_id := c.external_id, author_name := c.author_name, rating := c.rating, text := c.text, review_date := c.review_date, sentiment_score := (analyze_review pol (c.text.getD "") c.rating rw tw th).1, sentiment_label := (analyze_review pol (c.text.getD "") c.rating rw tw th).2 } with hrev
              set db1 : DB := { db with reviews := db.reviews ++ [review], next_review_id := db.next_review_id + 1 } with hdb1
              have hrw : (ingest_loop pol b source rw tw th false (c :: rest) db count pending).1 =
                  (ingest_loop pol b source rw tw th false rest db1 (count + 1)
                    [(source, c.external_id)]).1 := by
                simp [ingest_loop, hp, hfe, hdb1, hrev]
              have hrw2 : (ingest_loop pol b source rw tw th false (c :: rest) db count pending).2.1 =
                  (ingest_loop pol b source rw tw th false rest db1 (count + 1)
                    [(source, c.external_id)]).2.1 := by
                simp [ingest_loop, hp, hfe, hdb1, hrev]
              rw [hrw2] at hok
              obtain ⟨new, h1, _, _, _, _, _, _⟩ :=
                ingest_loop_spec pol b source rw tw th false rest db1 (count + 1)
                  [(source, c.external_id)]
              rcases List.mem_cons.mp hc2 with hc2 | hc2
              · subst hc2
                refine ⟨review, ?_, rfl, rfl⟩
                rw [hrw, h1]
                apply List.mem_append_left
                simp [hdb1]
              · obtain ⟨r1, hm, hpr⟩ :=
                  ih db1 (count + 1) [(source, c.external_id)] n hok c2 hc2
                exact ⟨r1, by rw [hrw]; exact hm, hpr⟩
        · have hrw : (ingest_loop pol b source rw tw th sa (c :: rest) db count pending).1 =
              (ingest_loop pol b source rw tw th sa rest db count []).1 := by
            simp [ingest_loop, hp, hfe]
          have hrw2 : (ingest_loop pol b source rw tw th sa (c :: rest) db count pending).2.1 =
              (ingest_loop pol b source rw tw th sa rest db count []).2.1 := by
            simp [ingest_loop, hp, hfe]
          rw [hrw2] at hok
          rcases List.mem_cons.mp hc2 with hc2 | hc2
          · subst hc2
            obtain ⟨hm, hs, hx⟩ := find_existing_some _ _ _ _ hfe
            obtain ⟨new, h1, _, _, _, _, _, _⟩ :=
              ingest_loop_spec pol b source rw tw th sa rest db count []
            refine ⟨r0, ?_, hs, hx⟩
            rw [hrw, h1]
            exact List.mem_append_left _ hm
          · obtain ⟨r1, hm, hpr⟩ := ih db count [] n hok c2 hc2
            exact ⟨r1, by rw [hrw]; exact hm, hpr⟩

/-- When every candidate of the run already has a stored Review with its
key and nothing is pending, the loop is a complete no-op: the session
state is unchanged and the count does not move. -/
theorem ingest_loop_all_existing (pol : String → Rat) (b : Business) (source : String)
    (rw tw th : Rat) (sa : Bool) :
    ∀ (data : List Candidate) (db : DB) (count : Nat),
    (∀ c ∈ data, ∃ r1 ∈ db.reviews, r1.source = source ∧ r1.external_id = c.external_id) →
    (ingest_loop pol b source rw tw th sa data db count []).1 = db ∧
    (ingest_loop pol b source rw tw th sa data db count []).2.1 = .ok count := by
  intro data
  induction data with
  | nil => intro db count _; exact ⟨rfl, rfl⟩
  | cons c rest ih =>
      intro db count hall
      obtain ⟨r0, hfe⟩ := find_existing_of_mem db.reviews source c.external_id
        (hall c (List.mem_cons_self _ _))
      obtain ⟨h1, h2⟩ := ih db count
        (fun c2 hc2 => hall c2 (List.mem_cons_of_mem _ hc2))
      constructor
      · simpa [ingest_loop, hfe] using h1
      · simpa [ingest_loop, hfe] using h2

/-- `save_scraped_reviews` on a store with a stored sentiment policy and
no conflicting keys: the run succeeds, its ScrapeLog is finalized
"success" with the new-review count, exactly the fresh candidates are
appended as Reviews with the weighted sentiment of the stored policy,
and afterwards every candidate key is stored. -/
theorem save_scraped_reviews_ok_spec (db : DB) (pol : String → Rat) (b : Business)
    (source : String) (data : List Candidate) (sa : Bool) (cfg : SentimentConfig)
    (hcfg : db.sentiment_config = some cfg)
    (hconf : ∀ c ∈ data, (source, c.external_id) ∉ db.conflicts) :
    ∃ new lg n,
      (save_scraped_reviews db pol b source data sa).2.1 = .ok (lg, n) ∧
      (save_scraped_reviews db pol b source data sa).1.reviews = db.reviews ++ new ∧
      n = new.length ∧
      (save_scraped_reviews db pol b source data sa).1.logs = db.logs ++ [lg] ∧
      (save_scraped_reviews db pol b source data sa).1.sentiment_config =
        db.sentiment_config ∧
      (save_scraped_reviews db pol b source data sa).1.conflicts = db.conflicts ∧
      lg.status = "success" ∧ lg.source = source ∧ lg.business_id = b.id ∧
      lg.reviews_found = some n ∧ lg.completed_at.isSome ∧
      (∀ r1 ∈ new, r1.source = source ∧
        (∀ r0 ∈ db.reviews, ¬(r0.source = source ∧ r0.external_id = r1.external_id)) ∧
        ∃ c ∈ data, r1.external_id = c.external_id ∧ r1.rating = c.rating ∧
          (r1.sentiment_score, r1.sentiment_label) =
            analyze_review pol (c.text.getD "") c.rating
              cfg.rating_weight cfg.text_weight cfg.threshold) ∧
      (∀ c ∈ data, ∃ r1 ∈ (save_scraped_reviews db pol b source data sa).1.reviews,
        r1.source = source ∧ r1.external_id = c.external_id) := by
  set db0 : DB := { db with logs := db.logs ++ [running_log db b source] } with hdb0
  have hget : get_sentiment_weights db0 =
      .ok (cfg.rating_weight, cfg.text_weight, cfg.threshold) := by
    simp [get_sentiment_weights, hdb0, hcfg]
  obtain ⟨n, hok⟩ := ingest_loop_ok pol b source cfg.rating_weight cfg.text_weight
    cfg.threshold sa data db0 0 [] (by intro c hc; exact hconf c hc)
    (by intro k hk; simp at hk)
  rcases hl : ingest_loop pol b source cfg.rating_weight cfg.text_weight cfg.threshold
      sa data db0 0 [] with ⟨db1, res, pend, tr⟩
  rw [hl] at hok
  simp only at hok
  subst hok
  obtain ⟨new, h1, h2, h3, h4, h5, h6, h7⟩ :=
    ingest_loop_spec pol b source cfg.rating_weight cfg.text_weight cfg.threshold sa data db0 0 []
  rw [hl] at h1 h2 h3 h4 h5 h6
  simp only at h1 h2 h3 h4 h5 h6
  have hcov := ingest_loop_covers pol b source cfg.rating_weight cfg.text_weight
    cfg.threshold sa data db0 0 [] n (by rw [hl])
  rw [hl] at hcov
  simp only at hcov
  have hres : save_scraped_reviews db pol b source data sa =
      ({ db1 with logs := finalize_log db1.logs { running_log db b source with status := "success", reviews_found := some n, completed_at := some db1.clock } },
       .ok ({ running_log db b source with status := "success", reviews_found := some n, completed_at := some db1.clock }, n), tr) := by
    rw [save_scraped_reviews, ← hdb0]
    simp only [hget, hl]
  refine ⟨new, { running_log db b source with status := "success", reviews_found := some n, completed_at := some db1.clock }, n, ?_, ?_, by simpa using h6 n rfl, ?_, ?_, ?_, rfl, rfl, rfl, rfl, rfl, ?_, ?_⟩
  · rw [hres]
  · rw [hres]
    simpa [hdb0] using h1
  · rw [hres]
    simp only
    rw [h2]
    simp [hdb0, finalize_log_concat, running_log]
  · rw [hres]
    simpa [hdb0] using h3
  · rw [hres]
    simpa [hdb0] using h4
  · intro r1 hr1
    obtain ⟨hs, hb2, hfresh, c2, hc2, hx, hy, hz⟩ := h7 r1 hr1
    refine ⟨hs, ?_, c2, hc2, hx, hy, hz⟩
    intro r0 h0
    exact hfresh r0 (by simpa [hdb0] using h0)
  · intro c hc
    obtain ⟨r1, hm, hp⟩ := hcov c hc
    refine ⟨r1, ?_, hp⟩
    rw [hres]
    simpa using hm

/-- A no-op run of `save_scraped_reviews`: when every candidate key is
already stored and a sentiment policy exists, the run succeeds with
new-review count 0 and the Review list is unchanged. -/
theorem save_scraped_reviews_noop (db : DB) (pol : String → Rat) (b : Business)
    (source : String) (data : List Candidate) (sa : Bool) (cfg : SentimentConfig)
    (hcfg : db.sentiment_config = some cfg)
    (hall : ∀ c ∈ data, ∃ r1 ∈ db.reviews, r1.source = source ∧
      r1.external_id = c.external_id) :
    ∃ lg, (save_scraped_reviews db pol b source data sa).2.1 = .ok (lg, 0) ∧
      (save_scraped_reviews db pol b source data sa).1.reviews = db.reviews := by
  set db0 : DB := { db with logs := db.logs ++ [running_log db b source] } with hdb0
  have hget : get_sentiment_weights db0 =
      .ok (cfg.rating_weight, cfg.text_weight, cfg.threshold) := by
    simp [get_sentiment_weights, hdb0, hcfg]
  obtain ⟨hst, hok⟩ := ingest_loop_all_existing pol b source cfg.rating_weight
    cfg.text_weight cfg.threshold sa data db0 0
    (by intro c hc; simpa [hdb0] using hall c hc)
  rcases hl : ingest_loop pol b source cfg.rating_weight cfg.text_weight cfg.threshold
      sa data db0 0 [] with ⟨db1, res, pend, tr⟩
  rw [hl] at hst hok
  simp only at hst hok
  subst hst
  subst hok
  refine ⟨{ running_log db b source with status := "success", reviews_found := some 0, completed_at := some db0.clock }, ?_, ?_⟩
  · rw [save_scraped_reviews, ← hdb0]
    simp only [hget, hl]
  · rw [save_scraped_reviews, ← hdb0]
    simp only [hget, hl]

/-- The analogue of `save_scraped_reviews_ok_spec` for
`run_scraper_for_business` with a successful adapter call. -/
theorem run_scraper_ok_spec (db : DB) (pol : String → Rat) (b : Business)
    (source : String) (data : List Candidate) (sa : Bool) (cfg : SentimentConfig)
    (hcfg : db.sentiment_config = some cfg)
    (hconf : ∀ c ∈ data, (source, c.external_id) ∉ db.conflicts) :
    ∃ new lg n,
      (run_scraper_for_business db pol b source (.ok data) sa).2 = .ok (lg, n) ∧
      (run_scraper_for_business db pol b source (.ok data) sa).1.reviews =
        db.reviews ++ new ∧
      n = new.length ∧
      (run_scraper_for_business db pol b source (.ok data) sa).1.logs = db.logs ++ [lg] ∧
      (run_scraper_for_business db pol b source (.ok data) sa).1.sentiment_config =
        db.sentiment_config ∧
      (run_scraper_for_business db pol b source (.ok data) sa).1.conflicts =
        db.conflicts ∧
      lg.status = "success" ∧ lg.source = source ∧ lg.business_id = b.id ∧
      lg.reviews_found = some n ∧ lg.completed_at.isSome ∧
      (∀ r1 ∈ new, r1.source = source ∧
        (∀ r0 ∈ db.reviews, ¬(r0.source = source ∧ r0.external_id = r1.external_id)) ∧
        ∃ c ∈ data, r1.external_id = c.external_id ∧ r1.rating = c.rating ∧
          (r1.sentiment_score, r1.sentiment_label) =
            analyze_review pol (c.text.getD "") c.rating
              cfg.rating_weight cfg.text_weight cfg.threshold) ∧
      (∀ c ∈ data,
        ∃ r1 ∈ (run_scraper_for_business db pol b source (.ok data) sa).1.reviews,
          r1.source = source ∧ r1.external_id = c.external_id) := by
  set db0 : DB := { db with logs := db.logs ++ [running_log db b source] } with hdb0
  have hget : get_sentiment_weights db0 =
      .ok (cfg.rating_weight, cfg.text_weight, cfg.threshold) := by
    simp [get_sentiment_weights, hdb0, hcfg]
  obtain ⟨n, hok⟩ := ingest_loop_ok pol b source cfg.rating_weight cfg.text_weight
    cfg.threshold sa data db0 0 [] (by intro c hc; exact hconf c hc)
    (by intro k hk; simp at hk)
  rcases hl : ingest_loop pol b source cfg.rating_weight cfg.text_weight cfg.threshold
      sa data db0 0 [] with ⟨db1, res, pend, tr⟩
  rw [hl] at hok
  simp only at hok
  subst hok
  obtain ⟨new, h1, h2, h3, h4, h5, h6, h7⟩ :=
    ingest_loop_spec pol b source cfg.rating_weight cfg.text_weight cfg.threshold sa data db0 0 []
  rw [hl] at h1 h2 h3 h4 h5 h6
  simp only at h1 h2 h3 h4 h5 h6
  have hcov := ingest_loop_covers pol b source cfg.rating_weight cfg.text_weight
    cfg.threshold sa data db0 0 [] n (by rw [hl])
  rw [hl] at hcov
  simp only at hcov
  have hres : run_scraper_for_business db pol b source (.ok data) sa =
      ({ db1 with logs := finalize_log db1.logs { running_log db b source with status := "success", reviews_found := some n, completed_at := some db1.clock } },
       .ok ({ running_log db b source with status := "success", reviews_found := some n, completed_at := some db1.clock }, n)) := by
    rw [run_scraper_for_business, ← hdb0]
    simp only [hget, hl]
  refine ⟨new, { running_log db b source with status := "success", reviews_found := some n, completed_at := some db1.clock }, n, ?_, ?_, by simpa using h6 n rfl, ?_, ?_, ?_, rfl, rfl, rfl, rfl, rfl, ?_, ?_⟩
  · rw [hres]
  · rw [hres]
    simpa [hdb0] using h1
  · rw [hres]
    simp only
    rw [h2]
    simp [hdb0, finalize_log_concat, running_log]
  · rw [hres]
    simpa [hdb0] using h3
  · rw [hres]
    simpa [hdb0] using h4
  · intro r1 hr1
    obtain ⟨hs, hb2, hfresh, c2, hc2, hx, hy, hz⟩ := h7 r1 hr1
    refine ⟨hs, ?_, c2, hc2, hx, hy, hz⟩
    intro r0 h0
    exact hfresh r0 (by simpa [hdb0] using h0)
  · intro c hc
    obtain ⟨r1, hm, hp⟩ := hcov c hc
    refine ⟨r1, ?_, hp⟩
    rw [hres]
    simpa using hm

/-- A no-op run of `run_scraper_for_business` with a successful adapter
call whose candidates are all already stored. -/
theorem run_scraper_noop (db : DB) (pol : String → Rat) (b : Business)
    (source : String) (data : List Candidate) (sa : Bool) (cfg : SentimentConfig)
    (hcfg : db.sentiment_config = some cfg)
    (hall : ∀ c ∈ data, ∃ r1 ∈ db.reviews, r1.source = source ∧
      r1.external_id = c.external_id) :
    ∃ lg, (run_scraper_for_business db pol b source (.ok data) sa).2 = .ok (lg, 0) ∧
      (run_scraper_for_business db pol b source (.ok data) sa).1.reviews = db.reviews := by
  set db0 : DB := { db with logs := db.logs ++ [running_log db b source] } with hdb0
  have hget : get_sentiment_weights db0 =
      .ok (cfg.rating_weight, cfg.text_weight, cfg.threshold) := by
    simp [get_sentiment_weights, hdb0, hcfg]
  obtain ⟨hst, hok⟩ := ingest_loop_all_existing pol b source cfg.rating_weight
    cfg.text_weight cfg.threshold sa data db0 0
    (by intro c hc; simpa [hdb0] using hall c hc)
  rcases hl : ingest_loop pol b source cfg.rating_weight cfg.text_weight cfg.threshold
      sa data db0 0 [] with ⟨db1, res, pend, tr⟩
  rw [hl] at hst hok
  simp only at hst hok
  subst hst
  subst hok
  refine ⟨{ running_log db b source with status := "success", reviews_found := some 0, completed_at := some db0.clock }, ?_, ?_⟩
  · rw [run_scraper_for_business, ← hdb0]
    simp only [hget, hl]
  · rw [run_scraper_for_business, ← hdb0]
    simp only [hget, hl]

/-- Concrete run of the candidate loop on two fresh, distinct candidates:
both are admitted, in order, and the count is 2. -/
theorem ingest_loop_two (pol : String → Rat) (b : Business) (source : String)
    (rw tw th : Rat) (sa : Bool) (db : DB) (c1 c2 : Candidate)
    (hne : c1.external_id ≠ c2.external_id)
    (hf1 : ∀ r0 ∈ db.reviews, ¬(r0.source = source ∧ r0.external_id = c1.external_id))
    (hf2 : ∀ r0 ∈ db.reviews, ¬(r0.source = source ∧ r0.external_id = c2.external_id))
    (hc1 : (source, c1.external_id) ∉ db.conflicts)
    (hc2 : (source, c2.external_id) ∉ db.conflicts) :
    ∃ r1 r2,
      (ingest_loop pol b source rw tw th sa [c1, c2] db 0 []).1.reviews =
        db.reviews ++ [r1, r2] ∧
      (ingest_loop pol b source rw tw th sa [c1, c2] db 0 []).2.1 = .ok 2 ∧
      r1.source = source ∧ r1.external_id = c1.external_id ∧
      r2.source = source ∧ r2.external_id = c2.external_id := by
  have hfe1 : find_existing db.reviews source c1.external_id = none := by
    simp only [find_existing]
    rw [List.find?_eq_none]
    intro r hr
    simpa using hf1 r hr
  have hfe2 : find_existing (db.reviews ++ [({ id := db.next_review_id, business_id := b.id, source := source, external_id := c1.external_id, author_name := c1.author_name, rating := c1.rating, text := c1.text, review_date := c1.review_date, sentiment_score := (analyze_review pol (c1.text.getD "") c1.rating rw tw th).1, sentiment_label := (analyze_review pol (c1.text.getD "") c1.rating rw tw th).2 } : Review)]) source c2.external_id = none := by
    simp only [find_existing]
    rw [List.find?_eq_none]
    intro r hr
    rcases List.mem_append.mp hr with hr | hr
    · simpa using hf2 r hr
    · rw [List.mem_singleton] at hr
      subst hr
      simp only [decide_eq_true_eq]
      intro hcon
      exact hne hcon.2
  refine ⟨{ id := db.next_review_id, business_id := b.id, source := source, external_id := c1.external_id, author_name := c1.author_name, rating := c1.rating, text := c1.text, review_date := c1.review_date, sentiment_score := (analyze_review pol (c1.text.getD "") c1.rating rw tw th).1, sentiment_label := (analyze_review pol (c1.text.getD "") c1.rating rw tw th).2 }, { id := db.next_review_id + 1, business_id := b.id, source := source, external_id := c2.external_id, author_name := c2.author_name, rating := c2.rating, text := c2.text, review_date := c2.review_date, sentiment_score := (analyze_review pol (c2.text.getD "") c2.rating rw tw th).1, sentiment_label := (analyze_review pol (c2.text.getD "") c2.rating rw tw th).2 }, ?_, ?_, rfl, rfl, rfl, rfl⟩
  · cases sa with
    | true => simp [ingest_loop, hfe1, hc1, hfe2, hc2, check_and_send_alerts]
    | false => simp [ingest_loop, hfe1, hc1, hfe2, hc2]
  · cases sa with
    | true => simp [ingest_loop, hfe1, hc1, hfe2, hc2, check_and_send_alerts]
    | false => simp [ingest_loop, hfe1, hc1, hfe2, hc2]

/-- The scraper selection of the web sweep for a business with exactly
the TrustPilot and BBB URLs configured. -/
theorem build_scrapers_two (db : DB) (b : Business) (tp bu : String)
    (h1 : b.google_place_id = none) (h2 : b.yelp_business_id = none)
    (h3 : b.yelp_url = none) (h4 : b.trustpilot_url = some tp)
    (h5 : b.bbb_url = some bu) (h6 : tp ≠ "") (h7 : bu ≠ "") :
    build_scrapers db b =
      [(ScraperKind.trustpilot_web, tp), (ScraperKind.bbb_web, bu)] := by
  rw [build_scrapers]
  rcases hg : get_api_config db "google_places" with _ | cfgg <;>
    rcases hy : get_api_config db "yelp_fusion" with _ | cfgy <;>
      simp [h1, h2, h3, h4, h5, truthy, h6, h7]

/-- The failed branch of `run_scraper_for_business` as a full state
equation. -/
theorem run_scraper_error_eq (db : DB) (pol : String → Rat) (b : Business)
    (source e : String) (sa : Bool) :
    run_scraper_for_business db pol b source (.error e) sa =
      ({ db with logs := db.logs ++ [{ running_log db b source with status := "failed", error_message := some e, completed_at := some db.clock }] },
       .error e) := by
  rw [run_scraper_for_business]
  simp only [finalize_log_concat]

/-- `run_scraper_for_business` on a successful adapter call returning
two fresh, distinct candidates: both are admitted and the ScrapeRun is
finalized "success" with count 2. -/
theorem run_scraper_two (db : DB) (pol : String → Rat) (b : Business) (source : String)
    (c1 c2 : Candidate) (sa : Bool) (cfg : SentimentConfig)
    (hcfg : db.sentiment_config = some cfg)
    (hne : c1.external_id ≠ c2.external_id)
    (hf1 : ∀ r0 ∈ db.reviews, ¬(r0.source = source ∧ r0.external_id = c1.external_id))
    (hf2 : ∀ r0 ∈ db.reviews, ¬(r0.source = source ∧ r0.external_id = c2.external_id))
    (hc1 : (source, c1.external_id) ∉ db.conflicts)
    (hc2 : (source, c2.external_id) ∉ db.conflicts) :
    ∃ lg r1 r2,
      (run_scraper_for_business db pol b source (.ok [c1, c2]) sa).2 = .ok (lg, 2) ∧
      (run_scraper_for_business db pol b source (.ok [c1, c2]) sa).1.reviews =
        db.reviews ++ [r1, r2] ∧
      (run_scraper_for_business db pol b source (.ok [c1, c2]) sa).1.logs =
        db.logs ++ [lg] ∧
      (run_scraper_for_business db pol b source (.ok [c1, c2]) sa).1.sentiment_config =
        db.sentiment_config ∧
      (run_scraper_for_business db pol b source (.ok [c1, c2]) sa).1.conflicts =
        db.conflicts ∧
      lg.source = source ∧ lg.status = "success" ∧ lg.reviews_found = some 2 ∧
      lg.completed_at.isSome ∧ lg.business_id = b.id ∧
      r1.source = source ∧ r1.external_id = c1.external_id ∧
      r2.source = source ∧ r2.external_id = c2.external_id := by
  set db0 : DB := { db with logs := db.logs ++ [running_log db b source] } with hdb0
  have hget : get_sentiment_weights db0 =
      .ok (cfg.rating_weight, cfg.text_weight, cfg.threshold) := by
    simp [get_sentiment_weights, hdb0, hcfg]
  obtain ⟨r1, r2, ht1, ht2, hs1, hx1, hs2, hx2⟩ :=
    ingest_loop_two pol b source cfg.rating_weight cfg.text_weight cfg.threshold sa db0
      c1 c2 hne hf1 hf2 hc1 hc2
  obtain ⟨new, g1, g2, g3, g4, g5, g6, g7⟩ :=
    ingest_loop_spec pol b source cfg.rating_weight cfg.text_weight cfg.threshold sa
      [c1, c2] db0 0 []
  rcases hl : ingest_loop pol b source cfg.rating_weight cfg.text_weight cfg.threshold
      sa [c1, c2] db0 0 [] with ⟨db1, res, pend, tr⟩
  rw [hl] at ht1 ht2 g2 g3 g4 g5
  simp only at ht1 ht2 g2 g3 g4 g5
  subst ht2
  have hres : run_scraper_for_business db pol b source (.ok [c1, c2]) sa =
      ({ db1 with logs := finalize_log db1.logs { running_log db b source with status := "success", reviews_found := some 2, completed_at := some db1.clock } },
       .ok ({ running_log db b source with status := "success", reviews_found := some 2, completed_at := some db1.clock }, 2)) := by
    rw [run_scraper_for_business, ← hdb0]
    simp only [hget, hl]
  refine ⟨{ running_log db b source with status := "success", reviews_found := some 2, completed_at := some db1.clock }, r1, r2, ?_, ?_, ?_, ?_, ?_, rfl, rfl, rfl, rfl, rfl, hs1, hx1, hs2, hx2⟩
  · rw [hres]
  · rw [hres]
    exact ht1
  · rw [hres]
    simp only
    rw [g2]
    simp [hdb0, finalize_log_concat, running_log]
  · rw [hres]
    simpa [hdb0] using g3
  · rw [hres]
    simpa [hdb0] using g4

/-! ### Claim theorems -/

/-- A concrete store with no SentimentConfig row. -/
def db_nopolicy : DB :=
  { businesses := [], reviews := [], logs := [], alert_configs := [],
    api_configs := [], sentiment_config := none, sent := [], conflicts := [],
    next_review_id := 1, clock := 0 }

/-- A concrete stored sentiment policy. -/
def policy_ex : SentimentConfig :=
  { rating_weight := 3/5, text_weight := 2/5, threshold := 3/20 }

/-- The concrete store `db_nopolicy` with `policy_ex` stored. -/
def db_policy : DB := { db_nopolicy with sentiment_config := some policy_ex }

/-- C3: the claim says `get_sentiment_weights` returns the hard-coded
text-only defaults with threshold 0.1 when no SentimentPolicy record
exists, rather than failing.  The code contradicts this (and its own
docstring): the fallback branch reads Config.SENTIMENT_RATING_WEIGHT,
but the Config class in reviewhound/config.py defines no attribute of
that name, so the call raises AttributeError.  The half of the claim
about an existing record holds: the stored rating_weight, text_weight
and threshold are returned. -/
theorem C3_sentiment_weights_fallback :
    get_sentiment_weights db_nopolicy =
      .error "AttributeError: type object Config has no attribute SENTIMENT_RATING_WEIGHT" ∧
    ("SENTIMENT_RATING_WEIGHT" ∈ Config_class_attributes ↔ False) ∧
    get_sentiment_weights db_policy = .ok (3/5, 2/5, 3/20) := by
  refine ⟨rfl, by decide, rfl⟩

/-- C4: when the adapter raises, `run_scraper_for_business` finalizes
the ScrapeRun as "failed" with the captured error text and a completion
time, admits no review, and re-raises the failure to the caller. -/
theorem C4_adapter_failure_finalizes_and_reraises :
    ∀ (db : DB) (pol : String → Rat) (b : Business) (source e : String) (sa : Bool),
    (run_scraper_for_business db pol b source (.error e) sa).2 = .error e ∧
    (run_scraper_for_business db pol b source (.error e) sa).1.reviews = db.reviews ∧
    ∃ lg, (run_scraper_for_business db pol b source (.error e) sa).1.logs = db.logs ++ [lg] ∧
      lg.status = "failed" ∧ lg.error_message = some e ∧
      lg.completed_at = some db.clock ∧ lg.source = source ∧ lg.business_id = b.id := by
  intro db pol b source e sa
  refine ⟨rfl, rfl, ?_⟩
  refine ⟨{ business_id := b.id, source := source, status := "failed",
            started_at := db.clock, completed_at := some db.clock,
            reviews_found := none, error_message := some e }, ?_, rfl, rfl, rfl, rfl, rfl⟩
  show finalize_log (db.logs ++ [running_log db b source]) _ = _
  rw [finalize_log_concat]
  simp [running_log]

/-- C10: `calculate_review_stats` is total and guards every division:
the empty list yields the all-zero record with an empty by_source map;
for a non-empty list the average rating is taken only over the reviews
with a present rating and is 0 when there are none, each sentiment
percentage times the total equals the corresponding label count times
100, and by_source maps each occurring source to its review count. -/
theorem C10_review_stats_guarded :
    (calculate_review_stats [] =
      { total := 0, avg_rating := 0, positive := 0, negative := 0, neutral := 0,
        positive_pct := 0, negative_pct := 0, neutral_pct := 0, by_source := [] }) ∧
    ∀ reviews : List Review, reviews ≠ [] →
      (calculate_review_stats reviews).total = reviews.length ∧
      ((reviews.filter (fun r => r.rating.isSome)) = [] →
        (calculate_review_stats reviews).avg_rating = 0) ∧
      ((reviews.filter (fun r => r.rating.isSome)) ≠ [] →
        (calculate_review_stats reviews).avg_rating *
            ((reviews.filter (fun r => r.rating.isSome)).length : Rat) =
          ((reviews.filter (fun r => r.rating.isSome)).map (fun r => r.rating.getD 0)).sum) ∧
      (calculate_review_stats reviews).positive_pct * (reviews.length : Rat) =
        ((reviews.filter (fun r => decide (r.sentiment_label = "positive"))).length : Rat) * 100 ∧
      (calculate_review_stats reviews).negative_pct * (reviews.length : Rat) =
        ((reviews.filter (fun r => decide (r.sentiment_label = "negative"))).length : Rat) * 100 ∧
      (calculate_review_stats reviews).neutral_pct * (reviews.length : Rat) =
        ((reviews.filter (fun r => decide (r.sentiment_label = "neutral"))).length : Rat) * 100 ∧
      ∀ s, alist_find (calculate_review_stats reviews).by_source s =
        (if (reviews.filter (fun r => decide (r.source = s))).length = 0 then none
         else some ((reviews.filter (fun r => decide (r.source = s))).length)) := by
  constructor
  · rfl
  · intro reviews hne
    have hlen : reviews.length ≠ 0 := by
      simpa using hne
    have hlenq : (reviews.length : Rat) ≠ 0 := by
      exact_mod_cast hlen
    simp only [calculate_review_stats, if_neg hlen]
    refine ⟨by simp, ?_, ?_, ?_, ?_, ?_, ?_⟩
    · intro hr; simp [hr]
    · intro hr
      have hrl : ((reviews.filter (fun r => r.rating.isSome)).length : Rat) ≠ 0 := by
        have h0 : (reviews.filter (fun r => r.rating.isSome)).length ≠ 0 := by
          simpa using hr
        exact_mod_cast h0
      simp only [if_pos hr]
      exact div_mul_cancel₀ _ hrl
    · simp only [if_pos hlen]
      field_simp
    · simp only [if_pos hlen]
      field_simp
    · simp only [if_pos hlen]
      field_simp
    · intro s
      rw [alist_find_foldl_bump]
      simp [alist_find]

/-- A concrete business fixture. -/
def business_ex : Business :=
  { id := 7, name := "Acme", address := none,
    trustpilot_url := some "https://tp.example/acme", bbb_url := none,
    yelp_url := none, google_place_id := none, yelp_business_id := none }

/-- A concrete candidate with a rating and positive text. -/
def cand1 : Candidate :=
  { external_id := "x1", author_name := some "Ann", rating := some 5,
    text := some "good product", review_date := none }

/-- A concrete candidate with no rating. -/
def cand2 : Candidate :=
  { external_id := "x2", author_name := none, rating := none,
    text := some "so so", review_date := none }

/-- A concrete polarity capability assigning 3/5 to every text. -/
def pol_ex : String → Rat := fun _ => 3/5

/-- C1: ingestion is idempotent and deduplicating.  On a store holding a
sentiment policy (see C3: without one the run cannot start) and with no
concurrent conflicting writer, a run of `save_scraped_reviews` appends
only Reviews whose (source, external_id) key was not stored before
(no update, no duplicate insert) and reports their number; an immediate
second run over the same candidate set reports 0 new reviews and leaves
the Review list of the store exactly unchanged, through
`save_scraped_reviews` as well as through `run_scraper_for_business`
with an adapter returning the same candidates. -/
theorem C1_ingest_idempotent_dedup :
    ∀ (db : DB) (pol : String → Rat) (b : Business) (source : String)
      (data : List Candidate) (sa1 sa2 : Bool) (cfg : SentimentConfig),
    db.sentiment_config = some cfg →
    (∀ c ∈ data, (source, c.external_id) ∉ db.conflicts) →
    ∃ lg1 n1 new,
      (save_scraped_reviews db pol b source data sa1).2.1 = .ok (lg1, n1) ∧
      (save_scraped_reviews db pol b source data sa1).1.reviews = db.reviews ++ new ∧
      n1 = new.length ∧
      (∀ r1 ∈ new, ∀ r0 ∈ db.reviews,
        ¬(r0.source = r1.source ∧ r0.external_id = r1.external_id)) ∧
      (∃ lg2,
        (save_scraped_reviews (save_scraped_reviews db pol b source data sa1).1
            pol b source data sa2).2.1 = .ok (lg2, 0) ∧
        (save_scraped_reviews (save_scraped_reviews db pol b source data sa1).1
            pol b source data sa2).1.reviews =
          (save_scraped_reviews db pol b source data sa1).1.reviews) ∧
      (∃ lg3,
        (run_scraper_for_business (save_scraped_reviews db pol b source data sa1).1
            pol b source (.ok data) sa2).2 = .ok (lg3, 0) ∧
        (run_scraper_for_business (save_scraped_reviews db pol b source data sa1).1
            pol b source (.ok data) sa2).1.reviews =
          (save_scraped_reviews db pol b source data sa1).1.reviews) := by
  intro db pol b source data sa1 sa2 cfg hcfg hconf
  obtain ⟨new, lg, n, e1, e2, e3, e4, e5, e6, _, _, _, _, _, hdesc, hcov⟩ :=
    save_scraped_reviews_ok_spec db pol b source data sa1 cfg hcfg hconf
  have hcfg1 : (save_scraped_reviews db pol b source data sa1).1.sentiment_config =
      some cfg := by rw [e5, hcfg]
  obtain ⟨lg2, f1, f2⟩ := save_scraped_reviews_noop
    (save_scraped_reviews db pol b source data sa1).1 pol b source data sa2 cfg hcfg1
    (fun c hc => hcov c hc)
  obtain ⟨lg3, g1, g2⟩ := run_scraper_noop
    (save_scraped_reviews db pol b source data sa1).1 pol b source data sa2 cfg hcfg1
    (fun c hc => hcov c hc)
  refine ⟨lg, n, new, e1, e2, e3, ?_, ⟨lg2, f1, f2⟩, ⟨lg3, g1, g2⟩⟩
  intro r1 hr1 r0 h0 hcon
  obtain ⟨hs, hfresh, _⟩ := hdesc r1 hr1
  exact hfresh r0 h0 ⟨hcon.1.trans hs, hcon.2⟩

/-- C1 witness: a concrete double run over two fresh candidates. -/
theorem C1_ingest_idempotent_dedup_witness :
    db_policy.sentiment_config = some policy_ex ∧
    (∀ c ∈ [cand1, cand2], ("trustpilot", c.external_id) ∉ db_policy.conflicts) ∧
    (∃ lg1 n1 new,
      (save_scraped_reviews db_policy pol_ex business_ex "trustpilot" [cand1, cand2]
        true).2.1 = .ok (lg1, n1) ∧
      (save_scraped_reviews db_policy pol_ex business_ex "trustpilot" [cand1, cand2]
        true).1.reviews = db_policy.reviews ++ new ∧
      n1 = new.length ∧
      (∀ r1 ∈ new, ∀ r0 ∈ db_policy.reviews,
        ¬(r0.source = r1.source ∧ r0.external_id = r1.external_id)) ∧
      (∃ lg2,
        (save_scraped_reviews
            (save_scraped_reviews db_policy pol_ex business_ex "trustpilot"
              [cand1, cand2] true).1
            pol_ex business_ex "trustpilot" [cand1, cand2] true).2.1 = .ok (lg2, 0) ∧
        (save_scraped_reviews
            (save_scraped_reviews db_policy pol_ex business_ex "trustpilot"
              [cand1, cand2] true).1
            pol_ex business_ex "trustpilot" [cand1, cand2] true).1.reviews =
          (save_scraped_reviews db_policy pol_ex business_ex "trustpilot"
            [cand1, cand2] true).1.reviews) ∧
      (∃ lg3,
        (run_scraper_for_business
            (save_scraped_reviews db_policy pol_ex business_ex "trustpilot"
              [cand1, cand2] true).1
            pol_ex business_ex "trustpilot" (.ok [cand1, cand2]) true).2 = .ok (lg3, 0) ∧
        (run_scraper_for_business
            (save_scraped_reviews db_policy pol_ex business_ex "trustpilot"
              [cand1, cand2] true).1
            pol_ex business_ex "trustpilot" (.ok [cand1, cand2]) true).1.reviews =
          (save_scraped_reviews db_policy pol_ex business_ex "trustpilot"
            [cand1, cand2] true).1.reviews)) :=
  ⟨rfl, by decide,
    C1_ingest_idempotent_dedup db_policy pol_ex business_ex "trustpilot"
      [cand1, cand2] true true policy_ex rfl (by decide)⟩

/-- C2: during ingestion through `save_scraped_reviews`, every newly
admitted Review of a candidate with a present rating carries the score
rating_weight * ((rating - 3) / 2) + text_weight * text_polarity for
the stored policy weights, and the text polarity alone when the rating
is absent; the documented example (text polarity 0.6, rating 5 of the
1 to 5 domain, weights 0.6 and 0.4) scores 0.84 and is labelled
positive. -/
theorem C2_weighted_sentiment :
    (∀ (db : DB) (pol : String → Rat) (b : Business) (source : String)
       (data : List Candidate) (sa : Bool) (cfg : SentimentConfig),
      db.sentiment_config = some cfg →
      ∀ r1 ∈ (save_scraped_reviews db pol b source data sa).1.reviews,
        r1 ∈ db.reviews ∨
        ∃ c ∈ data, r1.external_id = c.external_id ∧ r1.rating = c.rating ∧
          (∀ rr, c.rating = some rr →
            r1.sentiment_score =
              cfg.rating_weight * ((rr - 3) / 2) +
                cfg.text_weight * text_polarity pol (c.text.getD "")) ∧
          (c.rating = none →
            r1.sentiment_score = text_polarity pol (c.text.getD ""))) ∧
    analyze_review (fun _ => 3/5) "good product" (some 5) (3/5) (2/5) (1/10) =
      (84/100, "positive") ∧
    (∀ (pol : String → Rat) (text : String) (rw tw th : Rat),
      (analyze_review pol text none rw tw th).1 = text_polarity pol text) := by
  refine ⟨?_, ?_, ?_⟩
  · intro db pol b source data sa cfg hcfg r1 hr1
    set db0 : DB := { db with logs := db.logs ++ [running_log db b source] } with hdb0
    have hget : get_sentiment_weights db0 =
        .ok (cfg.rating_weight, cfg.text_weight, cfg.threshold) := by
      simp [get_sentiment_weights, hdb0, hcfg]
    rcases hl : ingest_loop pol b source cfg.rating_weight cfg.text_weight cfg.threshold
        sa data db0 0 [] with ⟨db1, res, pend, tr⟩
    obtain ⟨new, h1, _, _, _, _, _, h7⟩ :=
      ingest_loop_spec pol b source cfg.rating_weight cfg.text_weight cfg.threshold sa data db0 0 []
    rw [hl] at h1
    simp only at h1
    have hrev : (save_scraped_reviews db pol b source data sa).1.reviews = db1.reviews := by
      rw [save_scraped_reviews, ← hdb0]
      cases res with
      | error e => simp only [hget, hl]
      | ok n => simp only [hget, hl]
    rw [hrev, h1] at hr1
    rcases List.mem_append.mp hr1 with hm | hm
    · exact Or.inl (by simpa [hdb0] using hm)
    · right
      obtain ⟨_, _, _, c2, hc2, hx, hy, hz⟩ := h7 r1 hm
      refine ⟨c2, hc2, hx, hy, ?_, ?_⟩
      · intro rr hrr
        have hsc : r1.sentiment_score =
            (analyze_review pol (c2.text.getD "") c2.rating
              cfg.rating_weight cfg.text_weight cfg.threshold).1 := by
          rw [← hz]
        rw [hsc, hrr]
        simp [analyze_review]
      · intro hnone
        have hsc : r1.sentiment_score =
            (analyze_review pol (c2.text.getD "") c2.rating
              cfg.rating_weight cfg.text_weight cfg.threshold).1 := by
          rw [← hz]
        rw [hsc, hnone]
        simp [analyze_review]
  · have htp : text_polarity (fun _ => (3:Rat)/5) "good product" = 3/5 := by
      rw [text_polarity, if_neg (by decide)]
    have hsc : (3:Rat)/5 * (((5:Rat) - 3) / 2) + 2/5 * (3/5) = 21/25 := by norm_num
    simp only [analyze_review, htp, hsc]
    rw [if_pos (by norm_num : (21:Rat)/25 > 1/10)]
    rw [Prod.mk.injEq]
    exact ⟨by norm_num, rfl⟩
  · intro pol text rw tw th
    simp [analyze_review]

/-- An all-integer sentiment policy fixture (kernel-evaluable). -/
def policy_int : SentimentConfig :=
  { rating_weight := 0, text_weight := 1, threshold := 1 }

/-- The concrete store `db_nopolicy` with `policy_int` stored. -/
def db_policy_int : DB := { db_nopolicy with sentiment_config := some policy_int }

/-- The all-zero polarity capability. -/
def pol0 : String → Rat := fun _ => 0

/-- The Review admitted from `cand2` by the C2 witness run. -/
def rev_w : Review :=
  { id := 1, business_id := 7, source := "trustpilot", external_id := "x2",
    author_name := none, rating := none, text := some "so so",
    review_date := none, sentiment_score := 0, sentiment_label := "neutral" }

/-- C2 witness: the ingestion part evaluated at a concrete store, policy
and candidate (the closed 0.84 example is the second conjunct of the
theorem itself). -/
theorem C2_weighted_sentiment_witness :
    db_policy_int.sentiment_config = some policy_int ∧
    rev_w ∈ (save_scraped_reviews db_policy_int pol0 business_ex "trustpilot"
      [cand2] false).1.reviews ∧
    (rev_w ∈ db_policy_int.reviews ∨
      ∃ c ∈ [cand2], rev_w.external_id = c.external_id ∧ rev_w.rating = c.rating ∧
        (∀ rr, c.rating = some rr →
          rev_w.sentiment_score =
            policy_int.rating_weight * ((rr - 3) / 2) +
              policy_int.text_weight * text_polarity pol0 (c.text.getD "")) ∧
        (c.rating = none →
          rev_w.sentiment_score = text_polarity pol0 (c.text.getD ""))) :=
  ⟨rfl, by decide,
    C2_weighted_sentiment.1 db_policy_int pol0 business_ex "trustpilot" [cand2] false
      policy_int rfl rev_w (by decide)⟩

/-- The admission-then-alert ordering property of an ingest event trace:
an alert evaluation is always immediately preceded by the flush of the
same Review (the flush makes the identifier visible first), and every
admitted Review is immediately flushed and alert-evaluated before any
further event of the run, in particular before the dedup check of the
next candidate, unless the run aborts at that admission (in which case
the trace ends there). -/
def trace_ok (tr : List Ev) : Prop :=
  (∀ n i, tr.get? (n + 1) = some (Ev.alert_check i) →
    tr.get? n = some (Ev.flush_review i)) ∧
  (∀ i, tr.get? 0 ≠ some (Ev.alert_check i)) ∧
  (∀ n i, tr.get? n = some (Ev.add_review i) →
    (tr.get? (n + 1) = some (Ev.flush_review i) ∧
     tr.get? (n + 2) = some (Ev.alert_check i)) ∨ tr.drop (n + 1) = [])

theorem trace_ok_nil : trace_ok [] := by
  refine ⟨?_, ?_, ?_⟩ <;> intro n <;> simp

theorem trace_ok_single (s x : String) : trace_ok [Ev.dedup_check s x] := by
  refine ⟨?_, ?_, ?_⟩
  · intro n j hn
    rcases n with _ | n <;> simp [List.get?] at hn
  · intro j
    simp [List.get?]
  · intro n j hn
    rcases n with _ | n <;> simp [List.get?] at hn

theorem trace_ok_skip (s x : String) (tr : List Ev) (h : trace_ok tr) :
    trace_ok (Ev.dedup_check s x :: Ev.skip_existing s x :: tr) := by
  obtain ⟨ha, h0, hb⟩ := h
  refine ⟨?_, ?_, ?_⟩
  · intro n i hn
    rcases n with _ | n
    · simp [List.get?] at hn
    · rcases n with _ | n
      · simp only [List.get?] at hn ⊢
        exact absurd hn (h0 i)
      · simp only [List.get?] at hn ⊢
        exact ha n i hn
  · intro i
    simp [List.get?]
  · intro n i hn
    rcases n with _ | n
    · simp [List.get?] at hn
    · rcases n with _ | n
      · simp [List.get?] at hn
      · simp only [List.get?] at hn
        rcases hb n i hn with ⟨h1, h2⟩ | h1
        · left
          simp only [List.get?]
          exact ⟨h1, h2⟩
        · right
          simp only [List.drop]
          exact h1

theorem trace_ok_conflict (s x : String) (i : Nat) :
    trace_ok [Ev.dedup_check s x, Ev.add_review i] := by
  refine ⟨?_, ?_, ?_⟩
  · intro n j hn
    rcases n with _ | n
    · simp [List.get?] at hn
    · rcases n with _ | n <;> simp [List.get?] at hn
  · intro j
    simp [List.get?]
  · intro n j hn
    rcases n with _ | n
    · simp [List.get?] at hn
    · rcases n with _ | n
      · right
        rfl
      · simp [List.get?] at hn

theorem trace_ok_block (s x : String) (i : Nat) (tr : List Ev) (h : trace_ok tr) :
    trace_ok (Ev.dedup_check s x :: Ev.add_review i :: Ev.flush_review i ::
      Ev.alert_check i :: tr) := by
  obtain ⟨ha, h0, hb⟩ := h
  refine ⟨?_, ?_, ?_⟩
  · intro n j hn
    rcases n with _ | n
    · simp [List.get?] at hn
    · rcases n with _ | n
      · simp [List.get?] at hn
      · rcases n with _ | n
        · simp only [List.get?] at hn ⊢
          simp only [Option.some.injEq, Ev.alert_check.injEq] at hn
          subst hn
          rfl
        · rcases n with _ | n
          · simp only [List.get?] at hn ⊢
            exact absurd hn (h0 j)
          · simp only [List.get?] at hn ⊢
            exact ha n j hn
  · intro j
    simp [List.get?]
  · intro n j hn
    rcases n with _ | n
    · simp [List.get?] at hn
    · rcases n with _ | n
      · simp only [List.get?, Option.some.injEq, Ev.add_review.injEq] at hn
        subst hn
        left
        exact ⟨rfl, rfl⟩
      · rcases n with _ | n
        · simp [List.get?] at hn
        · rcases n with _ | n
          · simp [List.get?] at hn
          · simp only [List.get?] at hn
            rcases hb n j hn with ⟨h1, h2⟩ | h1
            · left
              simp only [List.get?]
              exact ⟨h1, h2⟩
            · right
              simp only [List.drop]
              exact h1

/-- The candidate loop with alerts enabled always emits a trace with the
admission-then-alert ordering. -/
theorem ingest_loop_trace_ok (pol : String → Rat) (b : Business) (source : String)
    (rw tw th : Rat) :
    ∀ (data : List Candidate) (db : DB) (count : Nat)
      (pending : List (String × String)),
    trace_ok (ingest_loop pol b source rw tw th true data db count pending).2.2.2 := by
  intro data
  induction data with
  | nil =>
      intro db count pending
      simpa [ingest_loop] using trace_ok_nil
  | cons c rest ih =>
      intro db count pending
      by_cases hp : pending.any (fun k => decide (k ∈ db.conflicts)) = true
      · have hrw : (ingest_loop pol b source rw tw th true (c :: rest) db count pending).2.2.2 =
            [Ev.dedup_check source c.external_id] := by
          simp [ingest_loop, hp]
        rw [hrw]
        exact trace_ok_single _ _
      · rcases hfe : find_existing db.reviews source c.external_id with _ | r0
        · by_cases hc : (source, c.external_id) ∈ db.conflicts
          · have hrw : (ingest_loop pol b source rw tw th true (c :: rest) db count pending).2.2.2 =
                [Ev.dedup_check source c.external_id, Ev.add_review db.next_review_id] := by
              simp [ingest_loop, hp, hfe, hc]
            rw [hrw]
            exact trace_ok_conflict _ _ _
          · have hrw : (ingest_loop pol b source rw tw th true (c :: rest) db count pending).2.2.2 =
                Ev.dedup_check source c.external_id :: Ev.add_review db.next_review_id ::
                  Ev.flush_review db.next_review_id :: Ev.alert_check db.next_review_id ::
                (ingest_loop pol b source rw tw th true rest
                  (check_and_send_alerts { db with reviews := db.reviews ++ [{ id := db.next_review_id, business_id := b.id, source := source, external_id := c.external_id, author_name := c.author_name, rating := c.rating, text := c.text, review_date := c.review_date, sentiment_score := (analyze_review pol (c.text.getD "") c.rating rw tw th).1, sentiment_label := (analyze_review pol (c.text.getD "") c.rating rw tw th).2 }], next_review_id := db.next_review_id + 1 } b { id := db.next_review_id, business_id := b.id, source := source, external_id := c.external_id, author_name := c.author_name, rating := c.rating, text := c.text, review_date := c.review_date, sentiment_score := (analyze_review pol (c.text.getD "") c.rating rw tw th).1, sentiment_label := (analyze_review pol (c.text.getD "") c.rating rw tw th).2 })
                  (count + 1) []).2.2.2 := by
              simp [ingest_loop, hp, hfe, hc]
            rw [hrw]
            exact trace_ok_block _ _ _ _ (ih _ _ _)
        · have hrw : (ingest_loop pol b source rw tw th true (c :: rest) db count pending).2.2.2 =
              Ev.dedup_check source c.external_id ::
                Ev.skip_existing source c.external_id ::
                (ingest_loop pol b source rw tw th true rest db count []).2.2.2 := by
            simp [ingest_loop, hp, hfe]
          rw [hrw]
          exact trace_ok_skip _ _ _ (ih db count [])

/-- C9: during ingestion with alerts enabled, every newly admitted
Review is flushed (making its identifier visible) immediately after
being added and before the alert evaluator is invoked for it, the alert
evaluator is invoked immediately after that flush, and both happen
before any event of the next candidate; alert evaluations are never
batched at the end of the run.  The only exception is an admission at
which the run aborts, where the trace ends with no alert call at all. -/
theorem C9_admission_then_alert_ordering :
    ∀ (db : DB) (pol : String → Rat) (b : Business) (source : String)
      (data : List Candidate),
    trace_ok (save_scraped_reviews db pol b source data true).2.2 := by
  intro db pol b source data
  rcases hget : get_sentiment_weights
      { db with logs := db.logs ++ [running_log db b source] } with e | w
  · rw [save_scraped_reviews]
    simp only [hget]
    exact trace_ok_nil
  · obtain ⟨rw0, tw0, th0⟩ := w
    rcases hl : ingest_loop pol b source rw0 tw0 th0 true data
        { db with logs := db.logs ++ [running_log db b source] } 0 [] with ⟨db1, res, pend, tr⟩
    have htr := ingest_loop_trace_ok pol b source rw0 tw0 th0 data
      { db with logs := db.logs ++ [running_log db b source] } 0 []
    rw [hl] at htr
    simp only at htr
    rw [save_scraped_reviews]
    cases res with
    | error e => simp only [hget, hl]; exact htr
    | ok n => simp only [hget, hl]; exact htr

/-- Witness for C10 at a concrete two-review list. -/
def reviews_ex : List Review :=
  [{ id := 1, business_id := 1, source := "trustpilot", external_id := "a",
     author_name := none, rating := some 5, text := some "great", review_date := none,
     sentiment_score := 9/10, sentiment_label := "positive" },
   { id := 2, business_id := 1, source := "trustpilot", external_id := "b",
     author_name := none, rating := none, text := some "meh", review_date := none,
     sentiment_score := 0, sentiment_label := "neutral" }]

/-- C10 witness: the guarded statistics evaluated at `reviews_ex`. -/
theorem C10_review_stats_guarded_witness :
    reviews_ex ≠ [] ∧
    ((calculate_review_stats reviews_ex).total = reviews_ex.length ∧
      ((reviews_ex.filter (fun r => r.rating.isSome)) = [] →
        (calculate_review_stats reviews_ex).avg_rating = 0) ∧
      ((reviews_ex.filter (fun r => r.rating.isSome)) ≠ [] →
        (calculate_review_stats reviews_ex).avg_rating *
            ((reviews_ex.filter (fun r => r.rating.isSome)).length : Rat) =
          ((reviews_ex.filter (fun r => r.rating.isSome)).map (fun r => r.rating.getD 0)).sum) ∧
      (calculate_review_stats reviews_ex).positive_pct * (reviews_ex.length : Rat) =
        ((reviews_ex.filter (fun r => decide (r.sentiment_label = "positive"))).length : Rat) * 100 ∧
      (calculate_review_stats reviews_ex).negative_pct * (reviews_ex.length : Rat) =
        ((reviews_ex.filter (fun r => decide (r.sentiment_label = "negative"))).length : Rat) * 100 ∧
      (calculate_review_stats reviews_ex).neutral_pct * (reviews_ex.length : Rat) =
        ((reviews_ex.filter (fun r => decide (r.sentiment_label = "neutral"))).length : Rat) * 100 ∧
      ∀ s, alist_find (calculate_review_stats reviews_ex).by_source s =
        (if (reviews_ex.filter (fun r => decide (r.source = s))).length = 0 then none
         else some ((reviews_ex.filter (fun r => decide (r.source = s))).length))) :=
  ⟨by decide, C10_review_stats_guarded.2 reviews_ex (by decide)⟩

/-- C5: sweep-level partial-failure isolation in the web sweep driver.
For a business with the TrustPilot and BBB web sources configured,
when the TrustPilot adapter raises and the BBB adapter returns two
fresh, distinct candidates, `scrape_business_sources` still processes
the remaining source, reports total_new = 2 together with failed
source name "trustpilot" in its summary, admits exactly the two BBB
Reviews, and finalizes the TrustPilot ScrapeRun "failed" while the BBB
ScrapeRun is "success". -/
theorem C5_partial_failure_isolation :
    ∀ (db : DB) (pol : String → Rat) (b : Business) (tp bu e : String)
      (c1 c2 : Candidate)
      (fetch : ScraperKind → String → Except String (List Candidate))
      (sa : Bool) (cfg : SentimentConfig),
    b.google_place_id = none → b.yelp_business_id = none → b.yelp_url = none →
    b.trustpilot_url = some tp → b.bbb_url = some bu → tp ≠ "" → bu ≠ "" →
    fetch ScraperKind.trustpilot_web tp = .error e →
    fetch ScraperKind.bbb_web bu = .ok [c1, c2] →
    db.sentiment_config = some cfg →
    c1.external_id ≠ c2.external_id →
    (∀ r0 ∈ db.reviews, ¬(r0.source = "bbb" ∧ r0.external_id = c1.external_id)) →
    (∀ r0 ∈ db.reviews, ¬(r0.source = "bbb" ∧ r0.external_id = c2.external_id)) →
    ("bbb", c1.external_id) ∉ db.conflicts →
    ("bbb", c2.external_id) ∉ db.conflicts →
    (scrape_business_sources db pol fetch b sa).2.1 = 2 ∧
    (scrape_business_sources db pol fetch b sa).2.2 = ["trustpilot"] ∧
    ∃ lgT lgB r1 r2,
      (scrape_business_sources db pol fetch b sa).1.logs = db.logs ++ [lgT, lgB] ∧
      lgT.source = "trustpilot" ∧ lgT.status = "failed" ∧
      lgT.error_message = some e ∧ lgT.completed_at.isSome ∧
      lgB.source = "bbb" ∧ lgB.status = "success" ∧ lgB.reviews_found = some 2 ∧
      (scrape_business_sources db pol fetch b sa).1.reviews = db.reviews ++ [r1, r2] ∧
      r1.source = "bbb" ∧ r1.external_id = c1.external_id ∧
      r2.source = "bbb" ∧ r2.external_id = c2.external_id := by
  intro db pol b tp bu e c1 c2 fetch sa cfg h1 h2 h3 h4 h5 h6 h7 hfet1 hfet2 hcfg hne
    hf1 hf2 hc1 hc2
  have hbuild := build_scrapers_two db b tp bu h1 h2 h3 h4 h5 h6 h7
  set db1 : DB := { db with logs := db.logs ++ [{ running_log db b "trustpilot" with status := "failed", error_message := some e, completed_at := some db.clock }] } with hdb1
  have he1 : run_scraper_for_business db pol b "trustpilot" (fetch ScraperKind.trustpilot_web tp) sa = (db1, .error e) := by
    rw [hfet1, run_scraper_error_eq]
  obtain ⟨lgB, r1, r2, k1, k2, k3, k4, k5, k6, k7, k8, k9, k10, k11, k12, k13, k14⟩ :=
    run_scraper_two db1 pol b "bbb" c1 c2 sa cfg (by simpa [hdb1] using hcfg) hne
      (by intro r0 hr0; exact hf1 r0 (by simpa [hdb1] using hr0))
      (by intro r0 hr0; exact hf2 r0 (by simpa [hdb1] using hr0))
      (by simpa [hdb1] using hc1) (by simpa [hdb1] using hc2)
  rcases hr2 : run_scraper_for_business db1 pol b "bbb" (.ok [c1, c2]) sa with ⟨dbF, res2⟩
  rw [hr2] at k1 k2 k3 k4 k5
  simp only at k1 k2 k3 k4 k5
  subst k1
  have hsweep : scrape_business_sources db pol fetch b sa = (dbF, 2, ["trustpilot"]) := by
    rw [scrape_business_sources, hbuild]
    simp only [List.foldl_cons, List.foldl_nil, ScraperKind.source]
    rw [he1]
    simp only
    rw [hfet2, hr2]
    simp
  refine ⟨by rw [hsweep], by rw [hsweep], { running_log db b "trustpilot" with status := "failed", error_message := some e, completed_at := some db.clock }, lgB, r1, r2, ?_, rfl, rfl, rfl, rfl, k6, k7, k8, ?_, k11, k12, k13, k14⟩
  · rw [hsweep]
    simp only
    rw [k3]
    simp [hdb1]
  · rw [hsweep]
    simp only
    rw [k2]

/-- The business fixture for the C5 witness: TrustPilot and BBB URLs
configured, nothing else. -/
def business_c5 : Business :=
  { id := 9, name := "Beta", address := none, trustpilot_url := some "tpu",
    bbb_url := some "bbu", yelp_url := none, google_place_id := none,
    yelp_business_id := none }

/-- Two fresh BBB candidates for the C5 witness. -/
def candB1 : Candidate :=
  { external_id := "b1", author_name := none, rating := none,
    text := some "fine", review_date := none }

/-- Second candidate of the C5 witness. -/
def candB2 : Candidate :=
  { external_id := "b2", author_name := none, rating := none,
    text := some "bad", review_date := none }

/-- The adapter capability of the C5 witness: TrustPilot raises, BBB
returns the two candidates. -/
def fetch_c5 : ScraperKind → String → Except String (List Candidate) :=
  fun k _ =>
    match k with
    | .trustpilot_web => .error "ConnectionError: boom"
    | .bbb_web => .ok [candB1, candB2]
    | _ => .ok []

/-- C5 witness: the sweep evaluated at the concrete fixture. -/
theorem C5_partial_failure_isolation_witness :
    business_c5.trustpilot_url = some "tpu" ∧
    fetch_c5 ScraperKind.trustpilot_web "tpu" = .error "ConnectionError: boom" ∧
    fetch_c5 ScraperKind.bbb_web "bbu" = .ok [candB1, candB2] ∧
    db_policy_int.sentiment_config = some policy_int ∧
    ((scrape_business_sources db_policy_int pol0 fetch_c5 business_c5 false).2.1 = 2 ∧
     (scrape_business_sources db_policy_int pol0 fetch_c5 business_c5 false).2.2 =
       ["trustpilot"] ∧
     ∃ lgT lgB r1 r2,
      (scrape_business_sources db_policy_int pol0 fetch_c5 business_c5 false).1.logs =
        db_policy_int.logs ++ [lgT, lgB] ∧
      lgT.source = "trustpilot" ∧ lgT.status = "failed" ∧
      lgT.error_message = some "ConnectionError: boom" ∧ lgT.completed_at.isSome ∧
      lgB.source = "bbb" ∧ lgB.status = "success" ∧ lgB.reviews_found = some 2 ∧
      (scrape_business_sources db_policy_int pol0 fetch_c5 business_c5 false).1.reviews =
        db_policy_int.reviews ++ [r1, r2] ∧
      r1.source = "bbb" ∧ r1.external_id = candB1.external_id ∧
      r2.source = "bbb" ∧ r2.external_id = candB2.external_id) :=
  ⟨rfl, rfl, rfl, rfl,
    C5_partial_failure_isolation db_policy_int pol0 business_c5 "tpu" "bbu"
      "ConnectionError: boom" candB1 candB2 fetch_c5 false policy_int
      rfl rfl rfl rfl rfl (by decide) (by decide) rfl rfl rfl (by decide)
      (by decide) (by decide) (by decide) (by decide)⟩

/-- The scraper selection of the web sweep for a business with only the
TrustPilot URL configured. -/
theorem build_scrapers_tp_only (db : DB) (b : Business) (tp : String)
    (h1 : b.google_place_id = none) (h2 : b.yelp_business_id = none)
    (h3 : b.yelp_url = none) (h4 : b.trustpilot_url = some tp)
    (h5 : b.bbb_url = none) (h6 : tp ≠ "") :
    build_scrapers db b = [(ScraperKind.trustpilot_web, tp)] := by
  rw [build_scrapers]
  rcases hg : get_api_config db "google_places" with _ | cfgg <;>
    rcases hy : get_api_config db "yelp_fusion" with _ | cfgy <;>
      simp [h1, h2, h3, h4, h5, truthy, h6]

/-- `run_scraper_for_business` on a conflicting candidate followed by a
further candidate: the store rejects the insert of the first
candidate's key inside the loop — at its explicit flush when alerts
are on, or at the autoflush of the next candidate's dedup query when
they are off — so the ScrapeRun is finalized "failed" with the
constraint error text and the error is re-raised, exactly as for an
adapter failure. -/
theorem run_scraper_conflict (db : DB) (pol : String → Rat) (b : Business)
    (source : String) (c c2 : Candidate) (sa : Bool) (cfg : SentimentConfig)
    (hcfg : db.sentiment_config = some cfg)
    (hf : ∀ r0 ∈ db.reviews, ¬(r0.source = source ∧ r0.external_id = c.external_id))
    (hc : (source, c.external_id) ∈ db.conflicts) :
    (run_scraper_for_business db pol b source (.ok [c, c2]) sa).2 =
      .error integrity_error ∧
    ∃ lg, (run_scraper_for_business db pol b source (.ok [c, c2]) sa).1.logs =
        db.logs ++ [lg] ∧
      lg.status = "failed" ∧ lg.error_message = some integrity_error ∧
      lg.completed_at.isSome ∧ lg.source = source := by
  set db0 : DB := { db with logs := db.logs ++ [running_log db b source] } with hdb0
  have hget : get_sentiment_weights db0 =
      .ok (cfg.rating_weight, cfg.text_weight, cfg.threshold) := by
    simp [get_sentiment_weights, hdb0, hcfg]
  have hfe1 : find_existing db.reviews source c.external_id = none := by
    simp only [find_existing]
    rw [List.find?_eq_none]
    intro r hr
    simpa using hf r hr
  have hres2 : (ingest_loop pol b source cfg.rating_weight cfg.text_weight cfg.threshold
      sa [c, c2] db0 0 []).2.1 = .error integrity_error := by
    cases sa with
    | true => simp [ingest_loop, hdb0, hfe1, hc]
    | false => simp [ingest_loop, hdb0, hfe1, hc]
  obtain ⟨new, g1, g2, g3, g4, g5, g6, g7⟩ :=
    ingest_loop_spec pol b source cfg.rating_weight cfg.text_weight cfg.threshold sa
      [c, c2] db0 0 []
  rcases hl : ingest_loop pol b source cfg.rating_weight cfg.text_weight cfg.threshold
      sa [c, c2] db0 0 [] with ⟨db1, res, pend, tr⟩
  rw [hl] at hres2 g2 g5
  simp only at hres2 g2 g5
  subst hres2
  have hres : run_scraper_for_business db pol b source (.ok [c, c2]) sa =
      ({ db1 with logs := finalize_log db1.logs { running_log db b source with status := "failed", error_message := some integrity_error, completed_at := some db1.clock } },
       .error integrity_error) := by
    rw [run_scraper_for_business, ← hdb0]
    simp only [hget, hl]
  refine ⟨by rw [hres], { running_log db b source with status := "failed", error_message := some integrity_error, completed_at := some db1.clock }, ?_, rfl, rfl, rfl, rfl⟩
  rw [hres]
  simp only
  rw [g2]
  simp [hdb0, finalize_log_concat, running_log]

/-- With alerts off and the conflicting candidate the last of the run,
the loop never flushes the insert: it completes normally with count 1,
`run_scraper_for_business` finalizes the ScrapeRun "success", and the
conflicting key is still pending when the loop returns — the
constraint violation surfaces only at the session commit, outside the
ingest function and the sweep drivers. -/
theorem run_scraper_trailing_conflict (db : DB) (pol : String → Rat) (b : Business)
    (source : String) (c : Candidate) (cfg : SentimentConfig)
    (hcfg : db.sentiment_config = some cfg)
    (hf : ∀ r0 ∈ db.reviews, ¬(r0.source = source ∧ r0.external_id = c.external_id))
    (hc : (source, c.external_id) ∈ db.conflicts) :
    (∃ lg, (run_scraper_for_business db pol b source (.ok [c]) false).2 = .ok (lg, 1) ∧
      lg.status = "success" ∧ lg.source = source) ∧
    (ingest_loop pol b source cfg.rating_weight cfg.text_weight cfg.threshold false [c]
        { db with logs := db.logs ++ [running_log db b source] } 0 []).2.2.1 =
      [(source, c.external_id)] := by
  set db0 : DB := { db with logs := db.logs ++ [running_log db b source] } with hdb0
  have hget : get_sentiment_weights db0 =
      .ok (cfg.rating_weight, cfg.text_weight, cfg.threshold) := by
    simp [get_sentiment_weights, hdb0, hcfg]
  have hfe1 : find_existing db.reviews source c.external_id = none := by
    simp only [find_existing]
    rw [List.find?_eq_none]
    intro r hr
    simpa using hf r hr
  constructor
  · refine ⟨{ running_log db b source with status := "success", reviews_found := some 1, completed_at := some db0.clock }, ?_, rfl, rfl⟩
    rw [run_scraper_for_business, ← hdb0]
    simp [hget, ingest_loop, hdb0, hfe1]
  · simp [ingest_loop, hdb0, hfe1]

/-- The scheduler variant: `_run_scraper_job` flushes every admitted
Review unconditionally, so on a candidate whose key the store rejects
it finalizes the ScrapeRun "failed" with the constraint error text, and
returns normally, surfacing nothing to the caller. -/
theorem run_scraper_job_conflict (db : DB) (pol : String → Rat) (b : Business)
    (source : String) (c : Candidate)
    (hf : ∀ r0 ∈ db.reviews, ¬(r0.source = source ∧ r0.external_id = c.external_id))
    (hc : (source, c.external_id) ∈ db.conflicts) :
    ∃ lg, (run_scraper_job db pol b source (.ok [c])).logs = db.logs ++ [lg] ∧
      lg.status = "failed" ∧ lg.error_message = some integrity_error ∧
      lg.completed_at.isSome ∧ lg.source = source := by
  set db0 : DB := { db with logs := db.logs ++ [running_log db b source] } with hdb0
  have hfe1 : find_existing db.reviews source c.external_id = none := by
    simp only [find_existing]
    rw [List.find?_eq_none]
    intro r hr
    simpa using hf r hr
  have hres2 : (scheduler_ingest_loop pol b source [c] db0 0).2 =
      .error integrity_error := by
    simp [scheduler_ingest_loop, hdb0, hfe1, hc]
  have hlogs : (scheduler_ingest_loop pol b source [c] db0 0).1.logs = db0.logs := by
    simp [scheduler_ingest_loop, hdb0, hfe1, hc]
  have hclock : (scheduler_ingest_loop pol b source [c] db0 0).1.clock = db0.clock := by
    simp [scheduler_ingest_loop, hdb0, hfe1, hc]
  rcases hl : scheduler_ingest_loop pol b source [c] db0 0 with ⟨db1, res⟩
  rw [hl] at hres2 hlogs hclock
  simp only at hres2 hlogs hclock
  subst hres2
  have hres : run_scraper_job db pol b source (.ok [c]) =
      { db1 with logs := finalize_log db1.logs { running_log db b source with status := "failed", error_message := some integrity_error, completed_at := some db1.clock } } := by
    rw [run_scraper_job, ← hdb0]
    simp only [hl]
  refine ⟨{ running_log db b source with status := "failed", error_message := some integrity_error, completed_at := some db1.clock }, ?_, rfl, rfl, rfl, rfl⟩
  rw [hres]
  simp only
  rw [hlogs]
  simp [hdb0, finalize_log_concat, running_log]

/-- C6 (amended): a persistence error raised inside the per-source
candidate loop is caught by the same blanket per-source handler as an
adapter fetch error, not treated as fatal: the ScrapeRun is finalized
"failed" with the constraint error text and the sweep continues; the
web sweep reports only the failed source name in its summary, exactly
the summary an adapter failure produces, and the scheduler sweep
(which flushes every admitted Review, so a conflict always raises
inside its loop) returns normally with nothing surfaced to its caller.
With alerts off, a conflicting insert of the final candidate is never
flushed inside the unit of work at all: the run is finalized "success"
and the violation is left pending for the session commit outside the
sweep drivers. -/
theorem C6_persistence_error_handling :
    ∀ (db : DB) (pol : String → Rat) (b : Business) (tp e : String) (c c2 : Candidate)
      (fetchC fetchE : ScraperKind → String → Except String (List Candidate))
      (sa : Bool) (cfg : SentimentConfig),
    b.google_place_id = none → b.yelp_business_id = none → b.yelp_url = none →
    b.trustpilot_url = some tp → b.bbb_url = none → tp ≠ "" →
    fetchC ScraperKind.trustpilot_web tp = .ok [c, c2] →
    fetchE ScraperKind.trustpilot_web tp = .error e →
    db.sentiment_config = some cfg →
    (∀ r0 ∈ db.reviews, ¬(r0.source = "trustpilot" ∧ r0.external_id = c.external_id)) →
    ("trustpilot", c.external_id) ∈ db.conflicts →
    (scrape_business_sources db pol fetchC b sa).2 = (0, ["trustpilot"]) ∧
    (scrape_business_sources db pol fetchE b sa).2 = (0, ["trustpilot"]) ∧
    (∃ lg, (scrape_business_sources db pol fetchC b sa).1.logs = db.logs ++ [lg] ∧
      lg.status = "failed" ∧ lg.error_message = some integrity_error ∧
      lg.completed_at.isSome) ∧
    (∃ lg, (run_scraper_job db pol b "trustpilot" (.ok [c])).logs = db.logs ++ [lg] ∧
      lg.status = "failed" ∧ lg.error_message = some integrity_error ∧
      lg.completed_at.isSome) ∧
    (∃ lg, (run_scraper_for_business db pol b "trustpilot" (.ok [c]) false).2 =
        .ok (lg, 1) ∧ lg.status = "success") ∧
    (ingest_loop pol b "trustpilot" cfg.rating_weight cfg.text_weight cfg.threshold
        false [c] { db with logs := db.logs ++ [running_log db b "trustpilot"] }
        0 []).2.2.1 = [("trustpilot", c.external_id)] := by
  intro db pol b tp e c c2 fetchC fetchE sa cfg h1 h2 h3 h4 h5 h6 hfC hfE hcfg hf hc
  have hbuild := build_scrapers_tp_only db b tp h1 h2 h3 h4 h5 h6
  obtain ⟨w1, lgC, w2, w3, w4, w5, w6⟩ :=
    run_scraper_conflict db pol b "trustpilot" c c2 sa cfg hcfg hf hc
  rcases hrc : run_scraper_for_business db pol b "trustpilot" (.ok [c, c2]) sa
    with ⟨dbC, resC⟩
  rw [hrc] at w1 w2
  simp only at w1 w2
  subst w1
  have hsC : scrape_business_sources db pol fetchC b sa = (dbC, 0, ["trustpilot"]) := by
    rw [scrape_business_sources, hbuild]
    simp only [List.foldl_cons, List.foldl_nil, ScraperKind.source]
    rw [hfC, hrc]
    simp
  have hsE : scrape_business_sources db pol fetchE b sa =
      ({ db with logs := db.logs ++ [{ running_log db b "trustpilot" with status := "failed", error_message := some e, completed_at := some db.clock }] },
       0, ["trustpilot"]) := by
    rw [scrape_business_sources, hbuild]
    simp only [List.foldl_cons, List.foldl_nil, ScraperKind.source]
    rw [hfE, run_scraper_error_eq]
    simp
  obtain ⟨lgS, s1, s2, s3, s4, s5⟩ := run_scraper_job_conflict db pol b "trustpilot" c hf hc
  obtain ⟨⟨lgT, t1, t2, t3⟩, tpend⟩ :=
    run_scraper_trailing_conflict db pol b "trustpilot" c cfg hcfg hf hc
  refine ⟨by rw [hsC], by rw [hsE], ⟨lgC, ?_, w3, w4, w5⟩, ⟨lgS, s1, s2, s3, s4⟩,
    ⟨lgT, t1, t2⟩, tpend⟩
  rw [hsC]
  exact w2

/-- The businesses of the C6 and C7 fixtures. -/
def business_c6 : Business :=
  { id := 11, name := "Gamma", address := none, trustpilot_url := some "tpu",
    bbb_url := none, yelp_url := none, google_place_id := none,
    yelp_business_id := none }

/-- A second business with only the BBB URL, used to show the sweep
continues after a persistence failure. -/
def business_c6b : Business :=
  { id := 12, name := "Delta", address := none, trustpilot_url := none,
    bbb_url := some "bbu", yelp_url := none, google_place_id := none,
    yelp_business_id := none }

/-- A candidate whose key the store rejects in the C6 fixture. -/
def candK : Candidate :=
  { external_id := "k1", author_name := none, rating := none, text := none,
    review_date := none }

/-- A fresh candidate after the conflicting one, whose dedup query
autoflushes the pending conflicting insert when alerts are off. -/
def candK2 : Candidate :=
  { external_id := "k2", author_name := none, rating := none, text := none,
    review_date := none }

/-- Store fixture for C6: a sentiment policy, and the store rejects
inserting ("trustpilot", "k1") with a unique-constraint violation. -/
def db_c6 : DB :=
  { businesses := [business_c6, business_c6b], reviews := [], logs := [],
    alert_configs := [], api_configs := [],
    sentiment_config := some policy_int, sent := [],
    conflicts := [("trustpilot", "k1")], next_review_id := 1, clock := 0 }

/-- C6 fixture adapter: TrustPilot returns the conflicting candidate
followed by a fresh one, everything else returns no candidates. -/
def fetch_conflict : ScraperKind → String → Except String (List Candidate) :=
  fun k _ =>
    match k with
    | .trustpilot_web => .ok [candK, candK2]
    | _ => .ok []

/-- C6 fixture adapter returning only the conflicting candidate, so the
conflicting insert is still pending when the candidate list ends. -/
def fetch_trailing : ScraperKind → String → Except String (List Candidate) :=
  fun k _ =>
    match k with
    | .trustpilot_web => .ok [candK]
    | _ => .ok []

/-- C6 fixture adapter with a plain adapter fetch error instead. -/
def fetch_adapter_err : ScraperKind → String → Except String (List Candidate) :=
  fun k _ =>
    match k with
    | .trustpilot_web => .error "ConnectionError: down"
    | _ => .ok []

/-- C6 counterexample: the claim says persistence errors, unlike adapter
fetch errors, abort the sweep or are loudly surfaced to the caller.  At
this concrete input a unique-constraint violation is raised during the
TrustPilot unit (at the autoflush of the second candidate's dedup
query), yet the web sweep returns normally with the summary
(0, ["trustpilot"]): byte for byte the same summary an adapter fetch
error produces, with the error text only in the ScrapeRun audit row;
the scheduler sweep also returns normally, records the failure only on
the ScrapeRun, and still processes the next business and source, whose
run succeeds.  And when the conflicting candidate is the last of its
run, with alerts off nothing is raised inside the sweep at all: the
web sweep reports one new review and no failed source, the ScrapeRun
is finalized "success", and the conflicting insert is left pending for
the session commit outside the sweep.  Nothing aborts and nothing
reaches the caller beyond what an adapter error produces. -/
theorem C6_counterexample_persistence_error_absorbed :
    ("trustpilot", candK.external_id) ∈ db_c6.conflicts ∧
    (scrape_business_sources db_c6 pol0 fetch_conflict business_c6 false).2 =
      (0, ["trustpilot"]) ∧
    (scrape_business_sources db_c6 pol0 fetch_adapter_err business_c6 false).2 =
      (0, ["trustpilot"]) ∧
    (scrape_business_sources db_c6 pol0 fetch_conflict business_c6 false).1.logs.map
      (fun lg => (lg.source, lg.status, lg.error_message)) =
      [("trustpilot", "failed", some integrity_error)] ∧
    (scrape_all_businesses db_c6 pol0 fetch_conflict).logs.map
      (fun lg => (lg.source, lg.status, lg.error_message)) =
      [("trustpilot", "failed", some integrity_error), ("bbb", "success", none)] ∧
    (scrape_business_sources db_c6 pol0 fetch_trailing business_c6 false).2 = (1, []) ∧
    (scrape_business_sources db_c6 pol0 fetch_trailing business_c6 false).1.logs.map
      (fun lg => (lg.source, lg.status, lg.error_message)) =
      [("trustpilot", "success", none)] ∧
    (ingest_loop pol0 business_c6 "trustpilot" policy_int.rating_weight
        policy_int.text_weight policy_int.threshold false [candK]
        { db_c6 with logs := db_c6.logs ++ [running_log db_c6 business_c6 "trustpilot"] }
        0 []).2.2.1 = [("trustpilot", "k1")] := by
  refine ⟨by decide, by decide, by decide, by decide, by decide, by decide, by decide,
    by decide⟩

/-- C6 witness for the amended theorem, at the C6 fixture. -/
theorem C6_persistence_error_handling_witness :
    db_c6.sentiment_config = some policy_int ∧
    ("trustpilot", candK.external_id) ∈ db_c6.conflicts ∧
    ((scrape_business_sources db_c6 pol0 fetch_conflict business_c6 false).2 =
      (0, ["trustpilot"]) ∧
    (scrape_business_sources db_c6 pol0 fetch_adapter_err business_c6 false).2 =
      (0, ["trustpilot"]) ∧
    (∃ lg, (scrape_business_sources db_c6 pol0 fetch_conflict business_c6 false).1.logs =
        db_c6.logs ++ [lg] ∧
      lg.status = "failed" ∧ lg.error_message = some integrity_error ∧
      lg.completed_at.isSome) ∧
    (∃ lg, (run_scraper_job db_c6 pol0 business_c6 "trustpilot" (.ok [candK])).logs =
        db_c6.logs ++ [lg] ∧
      lg.status = "failed" ∧ lg.error_message = some integrity_error ∧
      lg.completed_at.isSome) ∧
    (∃ lg, (run_scraper_for_business db_c6 pol0 business_c6 "trustpilot"
        (.ok [candK]) false).2 = .ok (lg, 1) ∧ lg.status = "success") ∧
    (ingest_loop pol0 business_c6 "trustpilot" policy_int.rating_weight
        policy_int.text_weight policy_int.threshold false [candK]
        { db_c6 with logs := db_c6.logs ++ [running_log db_c6 business_c6 "trustpilot"] }
        0 []).2.2.1 = [("trustpilot", candK.external_id)]) :=
  ⟨rfl, by decide,
    C6_persistence_error_handling db_c6 pol0 business_c6 "tpu" "ConnectionError: down"
      candK candK2 fetch_conflict fetch_adapter_err false policy_int
      rfl rfl rfl rfl rfl (by decide) rfl rfl rfl (by decide) (by decide)⟩

/-- Store fixture for C7: an enabled Yelp Fusion API configuration. -/
def db_c7 : DB :=
  { businesses := [], reviews := [], logs := [], alert_configs := [],
    api_configs := [{ provider := "yelp_fusion", api_key := "key-1", enabled := true }],
    sentiment_config := none, sent := [], conflicts := [],
    next_review_id := 1, clock := 0 }

/-- A business with both a Yelp provider identifier and a Yelp URL. -/
def business_c7 : Business :=
  { id := 13, name := "Eps", address := none, trustpilot_url := none,
    bbb_url := none, yelp_url := some "yu", google_place_id := none,
    yelp_business_id := some "yb" }

/-- The same business without the Yelp URL. -/
def business_c7b : Business :=
  { id := 14, name := "Zeta", address := none, trustpilot_url := none,
    bbb_url := none, yelp_url := none, google_place_id := none,
    yelp_business_id := some "yb" }

/-- C7 counterexample: the claim says the sweep uses a provider-API
source exactly when an enabled API configuration and the provider
identifier of the business both exist, citing both sweep drivers.  At
this concrete input an enabled yelp_fusion APIConfig and a
yelp_business_id both exist, and the web driver indeed selects the API
source; but the scheduler driver selects the URL web source instead,
and for the same business without a URL it selects nothing at all: the
scheduler sweep never consults the APIConfig table. -/
theorem C7_counterexample_scheduler_ignores_api :
    (get_api_config db_c7 "yelp_fusion").isSome = true ∧
    truthy business_c7.yelp_business_id = true ∧
    build_scrapers db_c7 business_c7 = [(ScraperKind.yelp_api "key-1", "yb")] ∧
    scheduler_scrapers business_c7 = [(ScraperKind.yelp_web, "yu")] ∧
    truthy business_c7b.yelp_business_id = true ∧
    scheduler_scrapers business_c7b = [] ∧
    scrape_business_job db_c7 pol0 fetch_conflict business_c7b = db_c7 := by
  refine ⟨by decide, by decide, by decide, by decide, by decide, by decide, rfl⟩

set_option maxHeartbeats 1600000 in
/-- C7 (amended): the claimed source-selection policy holds for the web
sweep driver (`scrape_business_sources`): a provider-API source is
selected exactly when an enabled API configuration and the provider
identifier of the business both exist, the Yelp web source is the
fallback for the same logical source, and the TrustPilot and BBB URL
sources are included independently; a business with zero configured
sources produces no ingestion side effects.  The scheduler sweep driver
(`_scrape_business_job`), however, selects only URL-configured web
sources and never a provider-API source; it also skips a business with
zero configured URLs with zero side effects. -/
theorem C7_source_selection :
    ∀ (db : DB) (b : Business) (pol : String → Rat)
      (fetch : ScraperKind → String → Except String (List Candidate)) (sa : Bool),
    ((∃ k i, (ScraperKind.google_api k, i) ∈ build_scrapers db b) ↔
      ((get_api_config db "google_places").isSome ∧ truthy b.google_place_id = true)) ∧
    ((∃ k i, (ScraperKind.yelp_api k, i) ∈ build_scrapers db b) ↔
      ((get_api_config db "yelp_fusion").isSome ∧ truthy b.yelp_business_id = true)) ∧
    ((∃ i, (ScraperKind.yelp_web, i) ∈ build_scrapers db b) ↔
      (¬((get_api_config db "yelp_fusion").isSome ∧ truthy b.yelp_business_id = true) ∧
        truthy b.yelp_url = true)) ∧
    ((∃ i, (ScraperKind.trustpilot_web, i) ∈ build_scrapers db b) ↔
      truthy b.trustpilot_url = true) ∧
    ((∃ i, (ScraperKind.bbb_web, i) ∈ build_scrapers db b) ↔
      truthy b.bbb_url = true) ∧
    (∀ k i, (ScraperKind.google_api k, i) ∉ scheduler_scrapers b) ∧
    (∀ k i, (ScraperKind.yelp_api k, i) ∉ scheduler_scrapers b) ∧
    (build_scrapers db b = [] →
      scrape_business_sources db pol fetch b sa = (db, 0, [])) ∧
    (truthy b.trustpilot_url = false ∧ truthy b.bbb_url = false ∧
        truthy b.yelp_url = false →
      scheduler_scrapers b = [] ∧ scrape_business_job db pol fetch b = db) := by
  intro db b pol fetch sa
  have hA8 : build_scrapers db b = [] →
      scrape_business_sources db pol fetch b sa = (db, 0, []) := by
    intro h
    rw [scrape_business_sources, h, List.foldl_nil]
  have hA9 : truthy b.trustpilot_url = false ∧ truthy b.bbb_url = false ∧
      truthy b.yelp_url = false →
      scheduler_scrapers b = [] ∧ scrape_business_job db pol fetch b = db := by
    rintro ⟨ha, hb2, hcy⟩
    have hsch : scheduler_scrapers b = [] := by
      simp [scheduler_scrapers, ha, hb2, hcy]
    exact ⟨hsch, by rw [scrape_business_job, hsch, List.foldl_nil]⟩
  refine ⟨?_, ?_, ?_, ?_, ?_, ?_, ?_, hA8, hA9⟩ <;>
    rcases hg : get_api_config db "google_places" with _ | cfgg <;>
      rcases hy : get_api_config db "yelp_fusion" with _ | cfgy <;>
        cases hgp : truthy b.google_place_id <;>
          cases hyb : truthy b.yelp_business_id <;>
            cases hyu : truthy b.yelp_url <;>
              cases htp : truthy b.trustpilot_url <;>
                cases hbb : truthy b.bbb_url <;>
                  simp [build_scrapers, scheduler_scrapers, hg, hy, hgp, hyb, hyu,
                    htp, hbb]

/-- C7 witness: the amended selection at a concrete store and business
with zero configured sources, and at the C7 fixture. -/
theorem C7_source_selection_witness :
    ((∃ k i, (ScraperKind.yelp_api k, i) ∈ build_scrapers db_c7 business_c7) ↔
      ((get_api_config db_c7 "yelp_fusion").isSome ∧
        truthy business_c7.yelp_business_id = true)) ∧
    (scheduler_scrapers business_c7b = [] ∧
      scrape_business_job db_c7 pol0 fetch_conflict business_c7b = db_c7) :=
  ⟨(C7_source_selection db_c7 business_c7 pol0 fetch_conflict false).2.1,
   (C7_source_selection db_c7 business_c7b pol0 fetch_conflict false).2.2.2.2.2.2.2.2
     ⟨by decide, by decide, by decide⟩⟩

/-- C8: alert gating of the modelled Alert Evaluator.  For every review
and every stored notification rule of its business, a notification is
recorded for (rule, review) by one evaluator call iff the rule is
enabled and the rating of the review is present and numerically at most
the rule threshold, and at most once per (rule, review) within the
call. -/
theorem C8_alert_gating :
    ∀ (db : DB) (b : Business) (review : Review) (rule : AlertConfig),
    (db.alert_configs.map (fun a => a.id)).Nodup →
    rule ∈ db.alert_configs →
    rule.business_id = b.id →
    (((rule.id, review.id) ∈
        (check_and_send_alerts db b review).sent.drop db.sent.length) ↔
      (rule.enabled = true ∧
        ∃ rr, review.rating = some rr ∧ rr ≤ rule.negative_threshold)) ∧
    ((check_and_send_alerts db b review).sent.drop db.sent.length).Nodup := by
  intro db b review rule hnodup hmem hbid
  have hsent : (check_and_send_alerts db b review).sent =
      db.sent ++
        ((db.alert_configs.filter
            (fun a => decide (a.business_id = b.id) && a.enabled)).filter
          (fun a => match review.rating with
            | some r => decide (r ≤ a.negative_threshold)
            | none => false)).map (fun a => (a.id, review.id)) := rfl
  have hnew : (check_and_send_alerts db b review).sent.drop db.sent.length =
      ((db.alert_configs.filter
          (fun a => decide (a.business_id = b.id) && a.enabled)).filter
        (fun a => match review.rating with
          | some r => decide (r ≤ a.negative_threshold)
          | none => false)).map (fun a => (a.id, review.id)) := by
    rw [hsent, List.drop_left]
  constructor
  · rw [hnew]
    constructor
    · intro hin
      obtain ⟨a, ha, hpa⟩ := List.mem_map.mp hin
      have haid : a.id = rule.id := by
        have := congrArg Prod.fst hpa
        simpa using this
      have h1 := List.mem_of_mem_filter ha
      have h2 := List.mem_of_mem_filter h1
      have heq : a = rule := List.inj_on_of_nodup_map hnodup h2 hmem haid
      subst heq
      have hp2 := List.of_mem_filter ha
      have hp1 := List.of_mem_filter h1
      rw [Bool.and_eq_true] at hp1
      refine ⟨hp1.2, ?_⟩
      cases hr : review.rating with
      | none => rw [hr] at hp2; simp at hp2
      | some rr =>
          rw [hr] at hp2
          exact ⟨rr, rfl, by simpa using hp2⟩
    · rintro ⟨hen, rr, hr, hle⟩
      apply List.mem_map.mpr
      refine ⟨rule, ?_, rfl⟩
      apply List.mem_filter.mpr
      refine ⟨List.mem_filter.mpr ⟨hmem, ?_⟩, ?_⟩
      · rw [Bool.and_eq_true]
        exact ⟨by simp [hbid], hen⟩
      · rw [hr]
        simpa using hle
  · rw [hnew]
    have hsub : ((db.alert_configs.filter
          (fun a => decide (a.business_id = b.id) && a.enabled)).filter
        (fun a => match review.rating with
          | some r => decide (r ≤ a.negative_threshold)
          | none => false)).Sublist db.alert_configs :=
      (List.filter_sublist _).trans (List.filter_sublist _)
    have hnd : (((db.alert_configs.filter
          (fun a => decide (a.business_id = b.id) && a.enabled)).filter
        (fun a => match review.rating with
          | some r => decide (r ≤ a.negative_threshold)
          | none => false)).map (fun a => a.id)).Nodup :=
      hnodup.sublist (hsub.map _)
    have hpairs : (((db.alert_configs.filter
          (fun a => decide (a.business_id = b.id) && a.enabled)).filter
        (fun a => match review.rating with
          | some r => decide (r ≤ a.negative_threshold)
          | none => false)).map (fun a => (a.id, review.id))).Nodup := by
      have hcomp : ((db.alert_configs.filter
            (fun a => decide (a.business_id = b.id) && a.enabled)).filter
          (fun a => match review.rating with
            | some r => decide (r ≤ a.negative_threshold)
            | none => false)).map (fun a => (a.id, review.id)) =
          (((db.alert_configs.filter
              (fun a => decide (a.business_id = b.id) && a.enabled)).filter
            (fun a => match review.rating with
              | some r => decide (r ≤ a.negative_threshold)
              | none => false)).map (fun a => a.id)).map
            (fun i => (i, review.id)) := by
        rw [List.map_map]
        rfl
      rw [hcomp]
      exact hnd.map (fun i j h => by simpa using h)
    exact hpairs

/-- The enabled notification rule fixture for C8: threshold 3. -/
def rule_c8 : AlertConfig :=
  { id := 21, business_id := 7, email := "ops@example.com",
    alert_on_negative := true, negative_threshold := 3, enabled := true }

/-- Store fixture for C8: exactly one rule. -/
def db_c8 : DB :=
  { businesses := [business_ex], reviews := [], logs := [],
    alert_configs := [rule_c8], api_configs := [], sentiment_config := none,
    sent := [], conflicts := [], next_review_id := 1, clock := 0 }

/-- A review with rating 2 of the C8 business. -/
def review_r2 : Review :=
  { id := 31, business_id := 7, source := "trustpilot", external_id := "r2",
    author_name := none, rating := some 2, text := none, review_date := none,
    sentiment_score := 0, sentiment_label := "neutral" }

/-- A review with rating 4 of the C8 business. -/
def review_r4 : Review :=
  { id := 32, business_id := 7, source := "trustpilot", external_id := "r4",
    author_name := none, rating := some 4, text := none, review_date := none,
    sentiment_score := 0, sentiment_label := "neutral" }

/-- A review with no rating of the C8 business. -/
def review_rn : Review :=
  { id := 33, business_id := 7, source := "trustpilot", external_id := "rn",
    author_name := none, rating := none, text := none, review_date := none,
    sentiment_score := 0, sentiment_label := "neutral" }

/-- C8 witness: the gating iff instantiated for the threshold-3 rule at
ratings 2 (fires), 4 (does not fire) and absent (does not fire), plus
the three evaluator calls computed outright. -/
theorem C8_alert_gating_witness :
    (db_c8.alert_configs.map (fun a => a.id)).Nodup ∧
    rule_c8 ∈ db_c8.alert_configs ∧ rule_c8.business_id = business_ex.id ∧
    ((((rule_c8.id, review_r2.id) ∈
        (check_and_send_alerts db_c8 business_ex review_r2).sent.drop
          db_c8.sent.length) ↔
      (rule_c8.enabled = true ∧
        ∃ rr, review_r2.rating = some rr ∧ rr ≤ rule_c8.negative_threshold)) ∧
     ((check_and_send_alerts db_c8 business_ex review_r2).sent.drop
        db_c8.sent.length).Nodup) ∧
    (check_and_send_alerts db_c8 business_ex review_r2).sent = [(21, 31)] ∧
    (check_and_send_alerts db_c8 business_ex review_r4).sent = [] ∧
    (check_and_send_alerts db_c8 business_ex review_rn).sent = [] :=
  ⟨by decide, by decide, rfl,
    C8_alert_gating db_c8 business_ex review_r2 rule_c8 (by decide) (by decide) rfl,
    by decide, by decide, by decide⟩

end ReviewHound
